import Mathlib

/-!
Verification development for the i-SMART research-paper discovery pipeline.

The repository contains three near-duplicate implementations of the
discovery / enrichment / scoring / deduplication pipeline:

* `backend/app/routers/search_paper.py`  (namespace `SearchPaper` below)
* `backend/app/routers/fetch_data.py`    (namespace `FetchData` below)
* `backend/app/service/research_service.py` (namespace `ResearchService` below)

Python `str`/`dict`/`list` values are modelled with `String`, association
lists and `List`; numeric JSON values with `ℚ`/`ℤ`; Python `float`
arithmetic inside the quality scorers with `ℝ` (exact real arithmetic);
an absent key or `None` with `Option.none`.
-/

/-- Character-list core of Python's `str.strip()`: drop whitespace from both
ends. -/
def listStrip (l : List Char) : List Char :=
  ((l.dropWhile Char.isWhitespace).reverse.dropWhile Char.isWhitespace).reverse

/-- Model of Python's `str.strip()` (used as `.strip()` throughout the
source). -/
def pyStrip (s : String) : String :=
  String.mk (listStrip s.data)

/-- Model of Python's `str.lower()` (ASCII case folding suffices for the
DOI/title strings the deduplicators lower-case). -/
def pyLower (s : String) : String :=
  String.mk (s.data.map Char.toLower)

/-- Model of Python's `str.upper()` (ASCII case folding suffices for the
quartile strings the scorer upper-cases). -/
def pyUpper (s : String) : String :=
  String.mk (s.data.map Char.toUpper)

/-- Python truthiness of an optional string: `None` and `""` are falsy. -/
def optStrTruthy : Option String → Bool
  | some s => s != ""
  | none => false

/-- Characters `re.split(r"[,\n;]+", q)` splits on, in
`split_keywords` (`search_paper.py`). -/
def isSepChar (c : Char) : Bool :=
  c = ',' || c = '\n' || c = ';'

/-- Model of `re.split(r"[,\n;]+", s)`, running over the character list.
The second argument is `some acc` while a piece (reversed in `acc`) is being
accumulated and `none` while inside a separator run; maximal nonempty
separator runs end a piece, and empty leading/trailing/adjacent pieces are
kept exactly the way `re.split` keeps them. -/
def splitSepsGo : List Char → Option (List Char) → List String
  | [], some acc => [String.mk acc.reverse]
  | [], none => [""]
  | c :: rest, some acc =>
    if isSepChar c then String.mk acc.reverse :: splitSepsGo rest none
    else splitSepsGo rest (some (c :: acc))
  | c :: rest, none =>
    if isSepChar c then splitSepsGo rest none
    else splitSepsGo rest (some [c])

def splitSeps (s : String) : List String :=
  splitSepsGo s.data (some [])

namespace SearchPaper

/-- The `parts` comprehension of `split_keywords` (`search_paper.py`):
`[p.strip() for p in re.split(r"[,\n;]+", q or "") if p and p.strip()]`. -/
def split_keywords_parts (q : String) : List String :=
  ((splitSeps q).filter (fun p => p != "" && pyStrip p != "")).map pyStrip

/-- `split_keywords` from `search_paper.py`:
`return parts if parts else [q.strip()]`. -/
def split_keywords (q : String) : List String :=
  if (split_keywords_parts q).isEmpty then [pyStrip q] else split_keywords_parts q

end SearchPaper

/-! ## Abstract reconstruction (`deconstruct_abstract`)

The same function appears verbatim in all three pipeline files. One value of
the inverted-index dict is modelled as `some xs` for a Python list (items:
`some n` for an int `n`, `none` for a non-int, non-numeric item) and `none`
for a non-list value. Numeric non-int items (floats/bools) are outside the
model. -/

abbrev InvIdx := List (String × Option (List (Option Int)))

/-- `valid_indices = [val[0] for val in inverted_index.values()
if isinstance(val, list) and val]`: the FIRST element of every nonempty
list value. -/
def firstPositions (idx : InvIdx) : List (Option Int) :=
  idx.filterMap fun e =>
    match e.2 with
    | some (x :: _) => some x
    | _ => none

/-- The write loop of `deconstruct_abstract`: for each word and each of its
listed int positions within bounds, `word_list[index] = word` (later entries
overwrite earlier ones on a collision). -/
def fillWords (idx : InvIdx) (wl : List String) : List String :=
  idx.foldl
    (fun acc e =>
      match e.2 with
      | some xs =>
        xs.foldl
          (fun acc2 x =>
            match x with
            | some i => if 0 ≤ i ∧ i < (acc2.length : Int) then acc2.set i.toNat e.1 else acc2
            | none => acc2)
          acc
      | none => acc)
    wl

/-- `' '.join(w for w in word_list if w)`, at the character level. -/
def joinSpaceChars : List String → List Char
  | [] => []
  | [s] => s.data
  | s :: rest => s.data ++ ' ' :: joinSpaceChars rest

def joinSpace (l : List String) : String :=
  String.mk (joinSpaceChars l)

/-- `deconstruct_abstract` from the source (identical in `search_paper.py`,
`fetch_data.py` and `research_service.py`): `max_index` is the maximum of
the FIRST listed position of each entry; a falsy (`None`/empty) index and an
index with no valid first positions give `None`; a non-int first position
makes Python's `max`/list-allocation raise `TypeError`, which the
`except` handler turns into `None`. -/
def deconstruct_abstract (inv : Option InvIdx) : Option String :=
  match inv with
  | none => none
  | some idx =>
    if idx.isEmpty then none
    else
      let vi := firstPositions idx
      if vi.isEmpty then none
      else if vi.any (fun x => x.isNone) then none
      else
        match vi.filterMap id with
        | [] => none
        | x :: xs =>
          let maxIndex := xs.foldl max x
          let wordList := List.replicate (maxIndex + 1).toNat ""
          some (pyStrip (joinSpace ((fillWords idx wordList).filter (fun w => w != ""))))

/-- Reconstruction as claim C3 words it: find the maximum position across
ALL listed positions of all entries, allocate a position-to-word array of
that length plus one, write every word into each of its listed positions
(later words win on a collision), and join the non-empty slots with single
spaces; an empty, absent, or invalid index yields an absent abstract. Stated
from the claim, for comparison with the source's `deconstruct_abstract`. -/
def reconstructClaimC3 (inv : Option InvIdx) : Option String :=
  match inv with
  | none => none
  | some idx =>
    if idx.isEmpty then none
    else
      match (idx.map (fun e => (e.2.getD []).filterMap id)).flatten with
      | [] => none
      | x :: xs =>
        let maxIndex := xs.foldl max x
        let wordList := List.replicate (maxIndex + 1).toNat ""
        some (joinSpace ((fillWords idx wordList).filter (fun w => w != "")))

/-! ## Quality scorers

`search_paper.py` uses an exponential-saturation SJR term and an h-index
taper; `fetch_data.py` (and, verbatim, `research_service.py`) use linear
caps. Python float arithmetic is modelled by exact real arithmetic; the JSON
numbers feeding the scorer are modelled as rationals. -/

/-- The fields of the `final_paper` dict that `calculate_quality_score`
reads. `none` models an absent key or `None` value. -/
structure ScoreInput where
  sjrScore : Option ℚ
  h_index : Option ℚ
  quartile : Option String
  citationCount : Option Int
  yearPublished : Option Int
  isFreelyAvailable : Bool
  abstract : Option String
deriving DecidableEq

/-- Python's `round(score, 2)` (round-half-to-even in Python; modelled as
round-half-up, which agrees except at exact ties, and the bound and
monotonicity claims are insensitive to the tie convention). -/
noncomputable def round2 (x : ℝ) : ℝ :=
  (round (x * 100) : ℤ) / 100

/-- `quartile_scores = {"Q1": 20, "Q2": 15, "Q3": 10, "Q4": 5}` read with
`.get(q, 0)`. -/
def quartMap (q : String) : ℝ :=
  if q = "Q1" then 20 else if q = "Q2" then 15 else if q = "Q3" then 10
  else if q = "Q4" then 5 else 0

/-- `if paper.get("isFreelyAvailable"): score += 5` (shared by all three
scorer copies). -/
def oaBonus : Bool → ℝ
  | true => 5
  | false => 0

/-- `if paper.get("abstract"): score += 5` (shared; the empty string is
falsy). -/
def abstractBonus : Option String → ℝ
  | some a => if a = "" then 0 else 5
  | none => 0

namespace SearchPaper

/-- `min(40.0, 40.0 * (1 - math.exp(-sjr / 3.0)))` under
`isinstance(sjr, (int, float))`. -/
noncomputable def sjrComponent : Option ℚ → ℝ
  | some s => min 40 (40 * (1 - Real.exp (-(s : ℝ) / 3)))
  | none => 0

/-- `min(30.0, 30.0 * (min(h_index, 200) / 200.0))` under
`isinstance(h_index, (int, float))`. -/
noncomputable def hIndexComponent : Option ℚ → ℝ
  | some h => min 30 (30 * (min (h : ℝ) 200 / 200))
  | none => 0

/-- `quartile_scores.get(q.upper(), 0)` under `isinstance(q, str)`. -/
def quartileComponent : Option String → ℝ
  | some q => quartMap (pyUpper q)
  | none => 0

/-- `min(30.0, math.log10(cites + 1) * 10.0)` under
`isinstance(cites, int) and cites > 0`. -/
noncomputable def citationComponent : Option Int → ℝ
  | some c => if 0 < c then min 30 (Real.logb 10 ((c : ℝ) + 1) * 10) else 0
  | none => 0

/-- `years_old = current_year - year; if years_old <= 5:
score += max(10 - (years_old * 2), 0)` under `isinstance(year, int)`. -/
def recencyComponent (cy : Int) : Option Int → ℝ
  | some y => if cy - y ≤ 5 then ((max (10 - (cy - y) * 2) 0 : ℤ) : ℝ) else 0
  | none => 0

/-- `calculate_quality_score` from `search_paper.py` (lines 100-143). -/
noncomputable def calculate_quality_score (p : ScoreInput) (cy : Int) : ℝ :=
  round2 (sjrComponent p.sjrScore + hIndexComponent p.h_index
    + quartileComponent p.quartile + citationComponent p.citationCount
    + recencyComponent cy p.yearPublished + oaBonus p.isFreelyAvailable
    + abstractBonus p.abstract)

end SearchPaper

namespace FetchData

/-- `if paper.get('sjrScore'): score += min(paper['sjrScore'] * 10, 40)`
(zero is falsy and contributes nothing either way). -/
noncomputable def sjrComponent : Option ℚ → ℝ
  | some s => if s = 0 then 0 else min ((s : ℝ) * 10) 40
  | none => 0

/-- `if paper.get('h_index'): score += min(paper['h_index'] / 5, 30)`. -/
noncomputable def hIndexComponent : Option ℚ → ℝ
  | some h => if h = 0 then 0 else min ((h : ℝ) / 5) 30
  | none => 0

/-- `if paper.get('quartile'): score += quartile_scores.get(paper['quartile'], 0)`
(no `.upper()` in this copy). -/
def quartileComponent : Option String → ℝ
  | some q => if q = "" then 0 else quartMap q
  | none => 0

/-- `if paper.get('citationCount') and paper['citationCount'] > 0:
score += min(math.log10(paper['citationCount'] + 1) * 10, 30)`. -/
noncomputable def citationComponent : Option Int → ℝ
  | some c => if c = 0 then 0 else if 0 < c then min (Real.logb 10 ((c : ℝ) + 1) * 10) 30 else 0
  | none => 0

/-- `if paper.get('yearPublished'): years_old = ...; if years_old <= 5:
score += max(10 - (years_old * 2), 0)` (year `0` is falsy). -/
def recencyComponent (cy : Int) : Option Int → ℝ
  | some y => if y = 0 then 0 else if cy - y ≤ 5 then ((max (10 - (cy - y) * 2) 0 : ℤ) : ℝ) else 0
  | none => 0

/-- `calculate_quality_score` from `fetch_data.py` (lines 70-91); the same
function appears verbatim as `calc_quality_score` in
`research_service.py`. -/
noncomputable def calculate_quality_score (p : ScoreInput) (cy : Int) : ℝ :=
  round2 (sjrComponent p.sjrScore + hIndexComponent p.h_index
    + quartileComponent p.quartile + citationComponent p.citationCount
    + recencyComponent cy p.yearPublished + oaBonus p.isFreelyAvailable
    + abstractBonus p.abstract)

end FetchData

namespace ResearchService

/-- `calc_quality_score` from `research_service.py` (lines 62-82), a verbatim
duplicate of `FetchData.calculate_quality_score`. -/
noncomputable def calc_quality_score (p : ScoreInput) (cy : Int) : ℝ :=
  FetchData.calculate_quality_score p cy

end ResearchService

/-- A paper record with no metrics at all. -/
def noMetricsInput : ScoreInput :=
  { sjrScore := none, h_index := none, quartile := none, citationCount := none,
    yearPublished := none, isFreelyAvailable := false, abstract := none }

/-- A record whose only field is a publication year 100 years in the future
of the evaluation year 2025. -/
def futureInputA : ScoreInput := { noMetricsInput with yearPublished := some 2125 }

/-- A record whose only field is an SJR value of `-3`. -/
def negSjrInput : ScoreInput := { noMetricsInput with sjrScore := some (-3) }

/-- A record whose only field is a publication year 66 years in the future
of the evaluation year 2025. -/
def futureInputB : ScoreInput := { noMetricsInput with yearPublished := some 2091 }

/-! ## Retrying fetcher (`enrich_paper_with_crossref` / `_crossref_get`)

Each attempt is one `client.get` + `raise_for_status()` + `.json()`; its
outcome is either a parsed payload or a raised exception. The loop is
modelled with the attempt outcomes given as a function of the attempt index,
explicit fuel for `for attempt in range(retries)`, and an `Except` result in
which `Except.error` would be an exception escaping the fetcher. The result
is paired with the number of attempts performed. -/

/-- The Crossref `message` record fields the pipelines read. -/
structure Meta where
  publisher : Option String
  containerTitle : List String
  issn : List String
deriving DecidableEq

/-- The Python exception classes distinguished by the fetchers'
`except` chains. -/
inductive PyExn
  | httpStatusError (code : Nat)
  | requestError
  | valueError
  | otherError
deriving DecidableEq

/-- Outcome of one attempt: a parsed `data.get("message", {})` payload
(`none` models an explicit `null` value of the `message` key), or a raised
exception. -/
inductive Resp
  | success (payload : Option Meta)
  | raise (e : PyExn)
deriving DecidableEq

namespace SearchPaper

/-- The retry loop of `enrich_paper_with_crossref` (`search_paper.py` lines
186-217): 429 sleeps and retries; 404 returns `None`; any other HTTP status
logs and returns `None`; `RequestError`/`ValueError` retries while
`attempt < retries - 1` (i.e. while fuel remains) and otherwise returns
`None`; any other exception returns `None`; loop exhaustion returns
`None`. -/
def crossrefLoop (resp : Nat → Resp) : Nat → Nat → Except PyExn (Option Meta) × Nat
  | 0, i => (Except.ok none, i)
  | fuel + 1, i =>
    match resp i with
    | Resp.success v => (Except.ok v, i + 1)
    | Resp.raise (PyExn.httpStatusError code) =>
      if code = 429 then crossrefLoop resp fuel (i + 1)
      else (Except.ok none, i + 1)
    | Resp.raise PyExn.requestError | Resp.raise PyExn.valueError =>
      if 0 < fuel then crossrefLoop resp fuel (i + 1) else (Except.ok none, i + 1)
    | Resp.raise PyExn.otherError => (Except.ok none, i + 1)

/-- `enrich_paper_with_crossref` (`search_paper.py`): a falsy DOI returns
`None` without any attempt. -/
def enrich_paper_with_crossref (doi : Option String) (resp : Nat → Resp) (retries : Nat) :
    Except PyExn (Option Meta) × Nat :=
  if optStrTruthy doi then crossrefLoop resp retries 0 else (Except.ok none, 0)

end SearchPaper

namespace FetchData

/-- The retry loop of `enrich_paper_with_crossref` (`fetch_data.py` lines
118-133): 429 sleeps (falling through to the next attempt); 404 returns
`None`; any OTHER HTTP status is swallowed by the `except` branch without a
`return`, so the loop continues and the request is retried; any other
exception sleeps and retries; loop exhaustion returns `None`. -/
def crossrefLoop (resp : Nat → Resp) : Nat → Nat → Except PyExn (Option Meta) × Nat
  | 0, i => (Except.ok none, i)
  | fuel + 1, i =>
    match resp i with
    | Resp.success v => (Except.ok v, i + 1)
    | Resp.raise (PyExn.httpStatusError code) =>
      if code = 429 then crossrefLoop resp fuel (i + 1)
      else if code = 404 then (Except.ok none, i + 1)
      else crossrefLoop resp fuel (i + 1)
    | Resp.raise _ => crossrefLoop resp fuel (i + 1)

/-- `enrich_paper_with_crossref` (`fetch_data.py`), with its fixed
`MAX_RETRIES = 5`. -/
def enrich_paper_with_crossref (doi : Option String) (resp : Nat → Resp) :
    Except PyExn (Option Meta) × Nat :=
  if optStrTruthy doi then crossrefLoop resp 5 0 else (Except.ok none, 0)

end FetchData

namespace ResearchService

/-- The retry loop of `_crossref_get` (`research_service.py` lines 90-113):
429 sleeps and retries; 404 and any other HTTP status return `None`;
`RequestError` retries while `attempt < MAX_RETRIES - 1` and otherwise
returns `None`; any other exception (including `ValueError` from `.json()`)
returns `None`; loop exhaustion returns `None`. -/
def crossrefLoop (resp : Nat → Resp) : Nat → Nat → Except PyExn (Option Meta) × Nat
  | 0, i => (Except.ok none, i)
  | fuel + 1, i =>
    match resp i with
    | Resp.success v => (Except.ok v, i + 1)
    | Resp.raise (PyExn.httpStatusError code) =>
      if code = 429 then crossrefLoop resp fuel (i + 1)
      else (Except.ok none, i + 1)
    | Resp.raise PyExn.requestError =>
      if 0 < fuel then crossrefLoop resp fuel (i + 1) else (Except.ok none, i + 1)
    | Resp.raise _ => (Except.ok none, i + 1)

/-- `_crossref_get` (`research_service.py`), with its fixed
`MAX_RETRIES = 5`. -/
def crossref_get (doi : Option String) (resp : Nat → Resp) :
    Except PyExn (Option Meta) × Nat :=
  if optStrTruthy doi then crossrefLoop resp 5 0 else (Except.ok none, 0)

end ResearchService

/-- The concrete Crossref payload used in the C4 counterexample. -/
def demoMeta : Meta :=
  { publisher := some "ACME", containerTitle := ["J. Test"], issn := ["1234-5678"] }

/-- The attempt outcomes used in the C4 counterexample: a 500 on the first
attempt, success afterwards. -/
def resp500 : Nat → Resp :=
  fun i => if i = 0 then Resp.raise (PyExn.httpStatusError 500) else Resp.success (some demoMeta)

/-! ## Per-work enrichment and Paper assembly -/

/-- `clean_issn` (`search_paper.py` lines 38-40, and `fetch_data.py`):
`re.sub(r"\D", "", issn)` — keep only digits (ASCII digits suffice for
ISSN strings). -/
def clean_issn (issn : String) : String :=
  String.mk (issn.data.filter Char.isDigit)

structure OpenAccess where
  is_oa : Bool
  oa_url : Option String
deriving DecidableEq

/-- OpenAlex `host_venue` fields read by `discover_and_process_single`.
A bare-string `issn` value (which the source wraps into a one-element list)
is modelled as a singleton list. -/
structure HostVenue where
  issn : List String
  issn_l : Option String
  display_name : Option String
deriving DecidableEq

/-- An OpenAlex work record, with the fields the pipelines select.
`authorships` entries are `some displayName` when the `author` object is
present and truthy. -/
structure Work where
  title : Option String
  authorships : List (Option String)
  doi : Option String
  cited_by_count : Option Int
  publication_year : Option Int
  abstract_inverted_index : Option InvIdx
  open_access : Option OpenAccess
  host_venue : Option HostVenue
deriving DecidableEq

/-- One record of the SJR lookup table, with the four impact-factor key
variants `impact_factor` / `ImpactFactor` / `JIF` / `jif` the source
probes. -/
structure RankRec where
  quartile : Option String
  h_index : Option ℚ
  sjr : Option ℚ
  impact_factor : Option ℚ
  impactFactorUpper : Option ℚ
  jifUpper : Option ℚ
  jifLower : Option ℚ
deriving DecidableEq

abbrev SjrTable := List (String × RankRec)

/-- One slot of `asyncio.gather(..., return_exceptions=True)`: an exception
object, or the fetcher's return value. -/
inductive GatherRes
  | exn
  | val (v : Option Meta)
deriving DecidableEq

/-- Python `a or b` on optional numeric values: `None` and `0` are falsy,
and the chain yields its last operand when every operand is falsy. -/
def pyOrQ (a b : Option ℚ) : Option ℚ :=
  match a with
  | some x => if x = 0 then b else some x
  | none => b

/-- Python truthiness of the Crossref `message` dict, restricted to the
modelled keys (a dict carrying only unmodelled keys counts as empty). -/
def metaTruthy (m : Meta) : Bool :=
  m.publisher != none || !m.containerTitle.isEmpty || !m.issn.isEmpty

/-- The merged, externally visible paper record built by
`discover_and_process_single`. -/
structure Paper where
  title : Option String
  authors : List String
  doi : Option String
  citationCount : Int
  publisher : Option String
  yearPublished : Option Int
  abstract : Option String
  isFreelyAvailable : Bool
  downloadUrl : Option String
  journalTitle : Option String
  issn : Option String
  quartile : Option String
  h_index : Option ℚ
  sjrScore : Option ℚ
  impactFactor : Option ℚ
  sourceKeyword : String
  qualityScore : ℝ

namespace SearchPaper

/-- `if crossref_meta and not isinstance(crossref_meta, Exception)`: the
Crossref dict actually used for enrichment. -/
def metaUseOf (metaRes : GatherRes) : Option Meta :=
  match metaRes with
  | GatherRes.val (some m) => if metaTruthy m then some m else none
  | _ => none

/-- The candidate loop of `discover_and_process_single` (lines 315-322):
`for raw in issn_candidates: if raw: c = clean_issn(raw); if c:
issn_clean = c; break`. -/
def resolveISSN : List String → Option String
  | [] => none
  | c :: rest =>
    if c ≠ "" then
      if clean_issn c ≠ "" then some (clean_issn c) else resolveISSN rest
    else resolveISSN rest

/-- ISSN candidate collection of `discover_and_process_single` (lines
291-311): Crossref `ISSN` list first (when the Crossref slot is a truthy
non-exception dict), then from a truthy `host_venue`: `issn_l` (when
truthy) followed by the venue `issn` list. -/
def issnCandidates (metaUse : Option Meta) (hv : Option HostVenue) : List String :=
  (match metaUse with
   | some m => m.issn
   | none => [])
  ++ (match hv with
     | some v =>
       (match v.issn_l with
        | some s => if s ≠ "" then [s] else []
        | none => []) ++ v.issn
     | none => [])

/-- `if issn_clean and issn_clean in sjr_lookup_data: r = sjr_lookup_data[issn_clean]`. -/
def rankOf (issn_clean : Option String) (table : SjrTable) : Option RankRec :=
  match issn_clean with
  | some c => if c ≠ "" then (table.find? (fun e => e.1 = c)).map (fun e => e.2) else none
  | none => none

/-- The per-work body of `discover_and_process_single` (lines 270-363):
assembles `final_paper` from the OpenAlex work, the Crossref gather slot,
the SJR table and the keyword, then scores it with
`calculate_quality_score`. The work is ALWAYS emitted. -/
noncomputable def processWork (work : Work) (metaRes : GatherRes) (table : SjrTable)
    (kw : String) (cy : Int) : Paper :=
  let metaUse := metaUseOf metaRes
  let abstract := deconstruct_abstract work.abstract_inverted_index
  let is_oa := match work.open_access with | some o => o.is_oa | none => false
  let oa_url := match work.open_access with | some o => o.oa_url | none => none
  let publisher := match metaUse with | some m => m.publisher | none => none
  let journal0 : Option String :=
    match metaUse with | some m => m.containerTitle.head? | none => none
  let journal_title : Option String :=
    match work.host_venue with
    | some v => if optStrTruthy journal0 then journal0 else v.display_name
    | none => journal0
  let issn_clean := resolveISSN (issnCandidates metaUse work.host_venue)
  let rank := rankOf issn_clean table
  let quartile := match rank with | some r => r.quartile | none => none
  let h_index := match rank with | some r => r.h_index | none => none
  let sjr_score := match rank with | some r => r.sjr | none => none
  let impact_factor :=
    match rank with
    | some r => pyOrQ (pyOrQ (pyOrQ r.impact_factor r.impactFactorUpper) r.jifUpper) r.jifLower
    | none => none
  { title := work.title
    authors := work.authorships.filterMap id
    doi := work.doi
    citationCount := work.cited_by_count.getD 0
    publisher := publisher
    yearPublished := work.publication_year
    abstract := abstract
    isFreelyAvailable := is_oa
    downloadUrl := oa_url
    journalTitle := journal_title
    issn := issn_clean
    quartile := quartile
    h_index := h_index
    sjrScore := sjr_score
    impactFactor := impact_factor
    sourceKeyword := kw
    qualityScore := SearchPaper.calculate_quality_score
      { sjrScore := sjr_score, h_index := h_index, quartile := quartile,
        citationCount := some (work.cited_by_count.getD 0),
        yearPublished := work.publication_year,
        isFreelyAvailable := is_oa, abstract := abstract } cy }

/-- The zip-loop entry including `if not work: continue`: a falsy work
yields no paper; a truthy work always yields one, whatever the Crossref
slot holds. -/
noncomputable def processWorkOpt (workOpt : Option Work) (metaRes : GatherRes)
    (table : SjrTable) (kw : String) (cy : Int) : Option Paper :=
  match workOpt with
  | none => none
  | some w => some (processWork w metaRes table kw cy)

end SearchPaper

/-- The paper record built by `discover_many_keywords`
(`research_service.py`; no impact factor, no source keyword). -/
structure RSPaper where
  title : Option String
  authors : List String
  doi : Option String
  citationCount : Int
  publisher : Option String
  yearPublished : Option Int
  abstract : Option String
  isFreelyAvailable : Bool
  downloadUrl : Option String
  journalTitle : Option String
  issn : Option String
  quartile : Option String
  h_index : Option ℚ
  sjrScore : Option ℚ
  qualityScore : ℝ

namespace ResearchService

/-- `_enrich_with_sjr` (`research_service.py` lines 190-198): only the
FIRST element of the Crossref ISSN list is considered
(`_clean_issn(issn_list[0]) if issn_list else None`); the cleaned value —
even when empty — becomes the paper's `issn`, and the ranking fields are
filled only when it is truthy and present in the table. Returns the
`(issn, quartile, h_index, sjrScore)` update. -/
def enrich_with_sjr (issnList : List String) (table : SjrTable) :
    Option String × Option String × Option ℚ × Option ℚ :=
  let cleaned : Option String := issnList.head?.map (fun s => clean_issn s)
  match cleaned with
  | some c =>
    if c ≠ "" then
      match table.find? (fun e => e.1 = c) with
      | some e => (some c, e.2.quartile, e.2.h_index, e.2.sjr)
      | none => (some c, none, none, none)
    else (some c, none, none, none)
  | none => (none, none, none, none)

/-- The per-work body of `discover_many_keywords` (lines 224-249) including
its guard `if not work or isinstance(meta, Exception) or meta is None:
continue`: a work whose Crossref slot is an exception or `None` is
DROPPED. -/
noncomputable def processWork (workOpt : Option Work) (metaRes : GatherRes)
    (table : SjrTable) (cy : Int) : Option RSPaper :=
  match workOpt, metaRes with
  | none, _ => none
  | some _, GatherRes.exn => none
  | some _, GatherRes.val none => none
  | some w, GatherRes.val (some m) =>
    let journal_title := m.containerTitle.head?
    let abstract := deconstruct_abstract w.abstract_inverted_index
    let is_oa := match w.open_access with | some o => o.is_oa | none => false
    let oa_url := match w.open_access with | some o => o.oa_url | none => none
    let enr := enrich_with_sjr m.issn table
    some
      { title := w.title
        authors := w.authorships.filterMap id
        doi := w.doi
        citationCount := w.cited_by_count.getD 0
        publisher := m.publisher
        yearPublished := w.publication_year
        abstract := abstract
        isFreelyAvailable := is_oa
        downloadUrl := oa_url
        journalTitle := journal_title
        issn := enr.1
        quartile := enr.2.1
        h_index := enr.2.2.1
        sjrScore := enr.2.2.2
        qualityScore := calc_quality_score
          { sjrScore := enr.2.2.2, h_index := enr.2.2.1, quartile := enr.2.1,
            citationCount := some (w.cited_by_count.getD 0),
            yearPublished := w.publication_year,
            isFreelyAvailable := is_oa, abstract := abstract } cy }

end ResearchService

/-- The Crossref-derived part of the candidate list, as the claim names
it. -/
def spSecondary (metaRes : GatherRes) : List String :=
  match SearchPaper.metaUseOf metaRes with
  | some m => m.issn
  | none => []

/-- The venue-level linking-ISSN slot of a work. -/
def spLinking (w : Work) : Option String :=
  match w.host_venue with
  | some v => v.issn_l
  | none => none

/-- The venue-level ISSN list of a work. -/
def spVenueIssns (w : Work) : List String :=
  match w.host_venue with
  | some v => v.issn
  | none => []

/-- The ISSN-resolution rule exactly as claim C7 words it: candidates are
the secondary source's ISSN list, then the venue-level fallback fields (the
linking-ISSN slot, then the venue list); each candidate is stripped of all
non-digit characters, and the resolved ISSN is the first candidate that
remains non-empty after stripping. Stated from the claim, for comparison
with the source. -/
def claimResolveISSN (secondary : List String) (linking : Option String)
    (venueIssns : List String) : Option String :=
  ((secondary ++ linking.toList ++ venueIssns).map clean_issn).find? (fun c => c != "")

/-- A concrete work used by the C5 counterexample: it has a title (and a
DOI), so the claim says it must be emitted even when the secondary lookup
returns nothing. -/
def demoWork : Work :=
  { title := some "Graphene batteries", authorships := [some "A. Author"],
    doi := some "10.1/x", cited_by_count := some 3, publication_year := some 2020,
    abstract_inverted_index := none, open_access := none, host_venue := none }

/-- A concrete venue used in the C7 witness. -/
def demoVenue : HostVenue :=
  { issn := ["9876-5432"], issn_l := some "1111-2222", display_name := some "J" }

/-- The C7 witness work: `demoWork` with the demonstration venue. -/
def demoWorkVenue : Work :=
  { demoWork with host_venue := some demoVenue }

/-- The demonstration SJR table used by the C7 counterexample: it does
contain the ISSN that the claimed rule resolves. -/
def demoTable : SjrTable :=
  [("12345678",
    { quartile := some "Q1", h_index := some 100, sjr := some 2,
      impact_factor := none, impactFactorUpper := none, jifUpper := none, jifLower := none })]

/-! ## Cross-keyword deduplication -/

/-- The fields of a scored paper dict that the deduplicators read. The
quality score is modelled as a rational so score comparisons stay exact. -/
structure DPaper where
  title : Option String
  yearPublished : Option Int
  doi : Option String
  abstract : Option String
  qualityScore : ℚ
deriving DecidableEq

namespace SearchPaper

/-- A key of the `dedup` dict of `discover_and_process_multi`: Python
strings (DOIs, and `str(key)` of the no-DOI tuple), plus the tuple value
itself, which the `key not in dedup` test probes but which is never
stored. -/
inductive PyKey
  | pstr (s : String)
  | ptup (title : Option String) (year : Option Int)
deriving DecidableEq

/-- Python `repr` of an optional string inside `str((title, year))`:
`None`, or the string in single quotes (quote-escaping corner cases
aside). -/
def pyReprStr : Option String → String
  | none => "None"
  | some s => String.singleton (Char.ofNat 39) ++ s ++ String.singleton (Char.ofNat 39)

/-- Python `repr` of an optional int inside `str((title, year))`. -/
def pyReprInt : Option Int → String
  | none => "None"
  | some n => toString n

/-- `str((p.get("title"), p.get("yearPublished")))`. -/
def tupleKeyStr (t : Option String) (y : Option Int) : String :=
  "(" ++ pyReprStr t ++ ", " ++ pyReprInt y ++ ")"

/-- Python dict assignment `d[k] = v`: replace in place when the key is
present, append otherwise. -/
def dictSet (m : List (PyKey × DPaper)) (k : PyKey) (v : DPaper) : List (PyKey × DPaper) :=
  if m.any (fun e => e.1 = k) then m.map (fun e => if e.1 = k then (k, v) else e)
  else m ++ [(k, v)]

/-- Python dict lookup `d.get(k)`. -/
def dictGet? (m : List (PyKey × DPaper)) (k : PyKey) : Option DPaper :=
  (m.find? (fun e => e.1 = k)).map (fun e => e.2)

/-- One iteration of the dedup loop of `discover_and_process_multi`
(`search_paper.py` lines 415-429). The source tests the TUPLE
`key = (title, year)` for membership but stores under `str(key)`; tuple
keys are never stored, so the membership test never succeeds and a no-DOI
record always overwrites the stored one (the `else` branch comparing
scores — which would raise `KeyError` — is unreachable). A truthy DOI is
keyed by the raw DOI string and replaced only on a strictly higher
score. -/
def dedupStep (m : List (PyKey × DPaper)) (p : DPaper) : List (PyKey × DPaper) :=
  if ¬ optStrTruthy p.doi then
    let tup := PyKey.ptup p.title p.yearPublished
    let sk := PyKey.pstr (tupleKeyStr p.title p.yearPublished)
    if ¬ m.any (fun e => e.1 = tup) then dictSet m sk p
    else
      match dictGet? m sk with
      | some e => if p.qualityScore > e.qualityScore then dictSet m sk p else m
      | none => m
  else
    let dk := PyKey.pstr (p.doi.getD "")
    match dictGet? m dk with
    | none => dictSet m dk p
    | some e => if p.qualityScore > e.qualityScore then dictSet m dk p else m

/-- The dedup fold of `discover_and_process_multi`; the route returns
`list(dedup.values())`. -/
def dedup (ps : List DPaper) : List (PyKey × DPaper) :=
  ps.foldl dedupStep []

end SearchPaper

namespace ResearchService

/-- The identity key of `discover_many_keywords` (lines 252-256):
lower-cased, stripped DOI if truthy, else lower-cased, stripped title;
empty key → the paper is skipped. -/
def dedupKey (p : DPaper) : String :=
  let k := pyStrip (pyLower (p.doi.getD ""))
  if k = "" then pyStrip (pyLower (p.title.getD "")) else k

/-- One iteration of the dedup of `discover_many_keywords` (lines 251-266):
the stored record is replaced when the incoming one has a strictly higher
quality score OR a truthy abstract while the stored one has none — the
abstract disjunct fires regardless of the score comparison. -/
def dedupStep (m : List (String × DPaper)) (p : DPaper) : List (String × DPaper) :=
  let k := dedupKey p
  if k = "" then m
  else
    match (m.find? (fun e => e.1 = k)).map (fun e => e.2) with
    | none => m ++ [(k, p)]
    | some e =>
      if p.qualityScore > e.qualityScore
          ∨ (optStrTruthy p.abstract ∧ ¬ optStrTruthy e.abstract) then
        m.map (fun q => if q.1 = k then (k, p) else q)
      else m

/-- The dedup fold of `discover_many_keywords`; the service returns
`list(results.values())`. -/
def dedup (ps : List DPaper) : List (String × DPaper) :=
  ps.foldl dedupStep []

end ResearchService

/-- Stored record of the C1 counterexample: score 95, no abstract. -/
def dpStored95 : DPaper :=
  { title := some "T", yearPublished := some 2020, doi := some "10.1/X",
    abstract := none, qualityScore := 95 }

/-- Incoming record of the C1 counterexample: same DOI, score 80, with an
abstract. -/
def dpIncoming80 : DPaper :=
  { title := some "T", yearPublished := some 2020, doi := some "10.1/X",
    abstract := some "An abstract", qualityScore := 80 }

/-- DOI-sharing record with score 95 used by C1's amended theorem. -/
def dpX95 : DPaper :=
  { title := some "U", yearPublished := some 2019, doi := some "10.2/Y",
    abstract := none, qualityScore := 95 }

/-- DOI-sharing record with score 80 used by C1's amended theorem. -/
def dpX80 : DPaper :=
  { title := some "U", yearPublished := some 2019, doi := some "10.2/Y",
    abstract := none, qualityScore := 80 }

/-! ## Claims and supporting lemmas -/

theorem string_mk_eq_empty_iff (l : List Char) : String.mk l = "" ↔ l = [] := by
  constructor
  · intro h
    have : (String.mk l).data = ("" : String).data := by rw [h]
    simpa using this
  · intro h
    rw [h]

theorem head?_dropWhile_not {p : Char → Bool} :
    ∀ (l : List Char) (c : Char), (l.dropWhile p).head? = some c → ¬ p c := by
  intro l
  induction l with
  | nil => intro c h; simp [List.dropWhile] at h
  | cons a rest ih =>
    intro c h
    by_cases hp : p a
    · rw [List.dropWhile_cons_of_pos hp] at h
      exact ih c h
    · rw [List.dropWhile_cons_of_neg hp] at h
      simp only [List.head?_cons, Option.some.injEq] at h
      rw [← h]
      exact hp

theorem pyStrip_eq_empty_iff (s : String) : pyStrip s = "" ↔ listStrip s.data = [] :=
  string_mk_eq_empty_iff (listStrip s.data)

theorem listStrip_eq_nil_iff (l : List Char) :
    listStrip l = [] ↔ ∀ c ∈ l, c.isWhitespace := by
  unfold listStrip
  rw [List.reverse_eq_nil_iff, List.dropWhile_eq_nil_iff]
  constructor
  · intro h c hc
    have hsplit := List.takeWhile_append_dropWhile (p := Char.isWhitespace) (l := l)
    rw [← hsplit] at hc
    rcases List.mem_append.mp hc with h1 | h2
    · exact List.mem_takeWhile_imp h1
    · exact h c (List.mem_reverse.mpr h2)
  · intro h c hc
    exact h c ((l.dropWhile_sublist Char.isWhitespace).subset (List.mem_reverse.mp hc))

theorem pyStrip_blank_iff (s : String) :
    pyStrip s = "" ↔ ∀ c ∈ s.data, c.isWhitespace := by
  rw [pyStrip_eq_empty_iff, listStrip_eq_nil_iff]

theorem listStrip_has_solid_char (l : List Char) (h : listStrip l ≠ []) :
    ∃ c ∈ listStrip l, ¬ c.isWhitespace := by
  have h2 : (l.dropWhile Char.isWhitespace).reverse.dropWhile Char.isWhitespace ≠ [] := by
    intro hc
    exact h (by simp [listStrip, hc])
  rcases hc : ((l.dropWhile Char.isWhitespace).reverse.dropWhile Char.isWhitespace).head?
    with _ | ⟨c⟩
  · rw [List.head?_eq_none_iff] at hc
    exact absurd hc h2
  · refine ⟨c, ?_, ?_⟩
    · unfold listStrip
      simp only [List.mem_reverse]
      exact List.mem_of_mem_head? hc
    · exact head?_dropWhile_not _ c hc

theorem pyStrip_nonblank_stable (s : String) (h : pyStrip s ≠ "") :
    pyStrip (pyStrip s) ≠ "" := by
  intro hcon
  rw [pyStrip_blank_iff] at hcon
  have h2 : listStrip s.data ≠ [] := fun hc => h ((pyStrip_eq_empty_iff s).mpr hc)
  rcases listStrip_has_solid_char s.data h2 with ⟨c, hc, hw⟩
  exact hw (hcon c hc)

theorem splitSepsGo_no_sep :
    ∀ (cs : List Char) (acc : List Char), (∀ c ∈ cs, ¬ isSepChar c) →
      splitSepsGo cs (some acc) = [String.mk (acc.reverse ++ cs)] := by
  intro cs
  induction cs with
  | nil => intro acc _; simp [splitSepsGo]
  | cons c rest ih =>
    intro acc hns
    have hc : ¬ isSepChar c := hns c (List.mem_cons_self c rest)
    rw [splitSepsGo, if_neg hc, ih (c :: acc) (fun x hx => hns x (List.mem_cons_of_mem c hx))]
    simp

theorem splitSepsGo_chars :
    ∀ (cs : List Char) (st : Option (List Char)) (s : String), s ∈ splitSepsGo cs st →
      ∀ c ∈ s.data, c ∈ cs ∨ ∃ acc, st = some acc ∧ c ∈ acc := by
  intro cs
  induction cs with
  | nil =>
    intro st s hs c hc
    match st with
    | some acc =>
      simp only [splitSepsGo, List.mem_singleton] at hs
      subst hs
      simp only [List.mem_reverse] at hc
      exact Or.inr ⟨acc, rfl, by simpa using hc⟩
    | none =>
      simp only [splitSepsGo, List.mem_singleton] at hs
      subst hs
      simp at hc
  | cons c0 rest ih =>
    intro st s hs c hc
    match st with
    | some acc =>
      rw [splitSepsGo] at hs
      by_cases hsep : isSepChar c0
      · rw [if_pos hsep] at hs
        rcases List.mem_cons.mp hs with h1 | h2
        · subst h1
          simp only [List.mem_reverse] at hc
          exact Or.inr ⟨acc, rfl, by simpa using hc⟩
        · rcases ih none s h2 c hc with h | ⟨acc, hacc, _⟩
          · exact Or.inl (List.mem_cons_of_mem c0 h)
          · exact absurd hacc (by simp)
      · rw [if_neg hsep] at hs
        rcases ih (some (c0 :: acc)) s hs c hc with h | ⟨acc2, hacc, hmem⟩
        · exact Or.inl (List.mem_cons_of_mem c0 h)
        · simp only [Option.some.injEq] at hacc
          subst hacc
          rcases List.mem_cons.mp hmem with h1 | h2
          · exact Or.inl (h1 ▸ List.mem_cons_self c0 rest)
          · exact Or.inr ⟨acc, rfl, h2⟩
    | none =>
      rw [splitSepsGo] at hs
      by_cases hsep : isSepChar c0
      · rw [if_pos hsep] at hs
        rcases ih none s hs c hc with h | ⟨acc, hacc, _⟩
        · exact Or.inl (List.mem_cons_of_mem c0 h)
        · exact absurd hacc (by simp)
      · rw [if_neg hsep] at hs
        rcases ih (some [c0]) s hs c hc with h | ⟨acc, hacc, hmem⟩
        · exact Or.inl (List.mem_cons_of_mem c0 h)
        · simp only [Option.some.injEq] at hacc
          subst hacc
          simp only [List.mem_singleton] at hmem
          exact Or.inl (hmem ▸ List.mem_cons_self c0 rest)

theorem splitSeps_chars (q : String) (s : String) (hs : s ∈ splitSeps q) :
    ∀ c ∈ s.data, c ∈ q.data := by
  intro c hc
  rcases splitSepsGo_chars q.data (some []) s hs c hc with h | ⟨acc, hacc, hmem⟩
  · exact h
  · simp only [Option.some.injEq] at hacc
    subst hacc
    simp at hmem

/-- Claim C8: for every non-blank query string, `split_keywords` returns at
least one keyword, no returned keyword is blank, and when the string contains
no comma/semicolon/newline separator the result is exactly the single-element
list containing the trimmed input. -/
theorem C8_query_partitioner (q : String) (h : pyStrip q ≠ "") :
    1 ≤ (SearchPaper.split_keywords q).length
    ∧ (∀ k ∈ SearchPaper.split_keywords q, pyStrip k ≠ "")
    ∧ ((∀ c ∈ q.data, ¬ isSepChar c) → SearchPaper.split_keywords q = [pyStrip q]) := by
  refine ⟨?_, ?_, ?_⟩
  · rw [SearchPaper.split_keywords]
    rcases he : SearchPaper.split_keywords_parts q with _ | ⟨a, rest⟩
    · simp [he]
    · simp [he]
  · intro k hk
    rw [SearchPaper.split_keywords] at hk
    rcases he : SearchPaper.split_keywords_parts q with _ | ⟨a, rest⟩
    · rw [he] at hk
      simp only [List.isEmpty_nil, if_pos, List.mem_singleton] at hk
      subst hk
      exact pyStrip_nonblank_stable q h
    · rw [he] at hk
      have hk2 : k ∈ SearchPaper.split_keywords_parts q := by
        rw [he]
        simpa using hk
      rcases List.mem_map.mp hk2 with ⟨p, hpmem, hpk⟩
      have hp := List.of_mem_filter hpmem
      simp only [Bool.and_eq_true, bne_iff_ne, ne_eq] at hp
      rw [← hpk]
      exact pyStrip_nonblank_stable p hp.2
  · intro hns
    have hq : splitSeps q = [q] := by
      unfold splitSeps
      rw [splitSepsGo_no_sep q.data [] hns]
      simp
    have hqne : q ≠ "" := by
      intro hcon
      apply h
      rw [hcon]
      rfl
    have hcond : (q != "" && pyStrip q != "") = true := by
      simp only [Bool.and_eq_true, bne_iff_ne, ne_eq]
      exact ⟨hqne, h⟩
    have hparts : SearchPaper.split_keywords_parts q = [pyStrip q] := by
      rw [SearchPaper.split_keywords_parts, hq]
      simp [List.filter_cons, hcond]
    rw [SearchPaper.split_keywords, hparts]
    simp

/-- Witness for C8 at the concrete query `"graphene"`. -/
theorem C8_query_partitioner_witness :
    pyStrip "graphene" ≠ ""
    ∧ (1 ≤ (SearchPaper.split_keywords "graphene").length
      ∧ (∀ k ∈ SearchPaper.split_keywords "graphene", pyStrip k ≠ "")
      ∧ ((∀ c ∈ "graphene".data, ¬ isSepChar c) →
          SearchPaper.split_keywords "graphene" = [pyStrip "graphene"])) :=
  ⟨by decide, C8_query_partitioner "graphene" (by decide)⟩

/-- Claim C10: for a blank query string (empty or whitespace-only),
`split_keywords` returns the single-element list containing the empty
string — it neither raises nor returns an empty list. -/
theorem C10_blank_query (q : String) (h : pyStrip q = "") :
    SearchPaper.split_keywords q = [""] := by
  have hall : ∀ c ∈ q.data, c.isWhitespace := (pyStrip_blank_iff q).mp h
  have hfilter : SearchPaper.split_keywords_parts q = [] := by
    rw [SearchPaper.split_keywords_parts]
    have : (splitSeps q).filter (fun p => p != "" && pyStrip p != "") = [] := by
      rw [List.filter_eq_nil_iff]
      intro p hp
      have hblank : pyStrip p = "" := by
        rw [pyStrip_blank_iff]
        intro c hc
        exact hall c (splitSeps_chars q p hp c hc)
      simp [hblank]
    rw [this]
    rfl
  rw [SearchPaper.split_keywords, hfilter]
  simp [h]

/-- Witness for C10 at the concrete blank query `"  "`. -/
theorem C10_blank_query_witness : SearchPaper.split_keywords "  " = [""] :=
  C10_blank_query "  " (by decide)

/-- Claim C3 (code bug): the source's `deconstruct_abstract` computes
`max_index` from each entry's FIRST listed position only (`val[0]`), not the
maximum across all positions the claim describes. On the index
`{"the": [0, 2], "cat": [1]}` (the inverted index of the abstract
`"the cat the"`) the code allocates only two slots and reconstructs
`"the cat"`, while the claimed algorithm reconstructs `"the cat the"`. The
claim's own example `{"a": [0], "b": [1]} ↦ "a b"` and the empty/absent
cases do hold. -/
theorem C3_abstract_reconstruction_code_bug :
    deconstruct_abstract (some [("the", some [some 0, some 2]), ("cat", some [some 1])])
        = some "the cat"
    ∧ reconstructClaimC3 (some [("the", some [some 0, some 2]), ("cat", some [some 1])])
        = some "the cat the"
    ∧ deconstruct_abstract (some [("a", some [some 0]), ("b", some [some 1])]) = some "a b"
    ∧ deconstruct_abstract none = none
    ∧ deconstruct_abstract (some []) = none := by
  decide

theorem round2_mono {x y : ℝ} (h : x ≤ y) : round2 x ≤ round2 y := by
  unfold round2
  have h1 : round (x * 100) ≤ round (y * 100) := by
    rw [round_eq, round_eq]
    exact Int.floor_le_floor (by linarith)
  have h2 : ((round (x * 100) : ℤ) : ℝ) ≤ ((round (y * 100) : ℤ) : ℝ) := Int.cast_le.mpr h1
  linarith

theorem round2_intCast (n : ℤ) : round2 ((n : ℤ) : ℝ) = n := by
  unfold round2
  have h1 : ((n : ℤ) : ℝ) * 100 = ((n * 100 : ℤ) : ℝ) := by push_cast; ring
  rw [h1, round_intCast]
  push_cast
  field_simp

theorem round2_zero : round2 (0 : ℝ) = 0 := by
  have := round2_intCast 0
  simpa using this

theorem round2_le_intCast {x : ℝ} {n : ℤ} (h : x ≤ (n : ℝ)) : round2 x ≤ (n : ℝ) := by
  have := round2_mono h
  rwa [round2_intCast] at this

theorem intCast_le_round2 {x : ℝ} {n : ℤ} (h : (n : ℝ) ≤ x) : (n : ℝ) ≤ round2 x := by
  have := round2_mono h
  rwa [round2_intCast] at this

theorem quartMap_nonneg (q : String) : 0 ≤ quartMap q := by
  unfold quartMap
  split_ifs <;> norm_num

theorem quartMap_le (q : String) : quartMap q ≤ 20 := by
  unfold quartMap
  split_ifs <;> norm_num

theorem oaBonus_nonneg (b : Bool) : 0 ≤ oaBonus b := by
  cases b <;> simp [oaBonus]

theorem oaBonus_le (b : Bool) : oaBonus b ≤ 5 := by
  cases b <;> simp [oaBonus]

theorem abstractBonus_nonneg (o : Option String) : 0 ≤ abstractBonus o := by
  match o with
  | none => simp [abstractBonus]
  | some a =>
    simp only [abstractBonus]
    split_ifs <;> norm_num

theorem abstractBonus_le (o : Option String) : abstractBonus o ≤ 5 := by
  match o with
  | none => simp [abstractBonus]
  | some a =>
    simp only [abstractBonus]
    split_ifs <;> norm_num

theorem sp_sjr_le (o : Option ℚ) : SearchPaper.sjrComponent o ≤ 40 := by
  match o with
  | none => simp [SearchPaper.sjrComponent]
  | some s =>
    simp only [SearchPaper.sjrComponent]
    exact min_le_left _ _

theorem sp_sjr_nonneg (o : Option ℚ) (H : ∀ s, o = some s → 0 ≤ s) :
    0 ≤ SearchPaper.sjrComponent o := by
  match o with
  | none => simp [SearchPaper.sjrComponent]
  | some s =>
    have hs : (0 : ℚ) ≤ s := H s rfl
    have hsr : (0 : ℝ) ≤ (s : ℝ) := by exact_mod_cast hs
    have hexp : Real.exp (-(s : ℝ) / 3) ≤ 1 := Real.exp_le_one_iff.mpr (by linarith)
    simp only [SearchPaper.sjrComponent]
    exact le_min (by norm_num) (by nlinarith)

theorem sp_h_le (o : Option ℚ) : SearchPaper.hIndexComponent o ≤ 30 := by
  match o with
  | none => simp [SearchPaper.hIndexComponent]
  | some h =>
    simp only [SearchPaper.hIndexComponent]
    exact min_le_left _ _

theorem sp_h_nonneg (o : Option ℚ) (H : ∀ h, o = some h → 0 ≤ h) :
    0 ≤ SearchPaper.hIndexComponent o := by
  match o with
  | none => simp [SearchPaper.hIndexComponent]
  | some h =>
    have hh : (0 : ℚ) ≤ h := H h rfl
    have hhr : (0 : ℝ) ≤ (h : ℝ) := by exact_mod_cast hh
    have hm : (0 : ℝ) ≤ min (h : ℝ) 200 := le_min hhr (by norm_num)
    simp only [SearchPaper.hIndexComponent]
    exact le_min (by norm_num) (by linarith)

theorem sp_quart_nonneg (o : Option String) : 0 ≤ SearchPaper.quartileComponent o := by
  match o with
  | none => simp [SearchPaper.quartileComponent]
  | some q =>
    simp only [SearchPaper.quartileComponent]
    exact quartMap_nonneg _

theorem sp_quart_le (o : Option String) : SearchPaper.quartileComponent o ≤ 20 := by
  match o with
  | none => simp [SearchPaper.quartileComponent]
  | some q =>
    simp only [SearchPaper.quartileComponent]
    exact quartMap_le _

theorem sp_cite_le (o : Option Int) : SearchPaper.citationComponent o ≤ 30 := by
  match o with
  | none => simp [SearchPaper.citationComponent]
  | some c =>
    simp only [SearchPaper.citationComponent]
    split_ifs with h
    · exact min_le_left _ _
    · norm_num

theorem sp_cite_nonneg (o : Option Int) : 0 ≤ SearchPaper.citationComponent o := by
  match o with
  | none => simp [SearchPaper.citationComponent]
  | some c =>
    simp only [SearchPaper.citationComponent]
    split_ifs with h
    · refine le_min (by norm_num) ?_
      have h1 : (1 : ℝ) ≤ (c : ℝ) + 1 := by
        have : (1 : ℤ) ≤ c := h
        have h2 : (1 : ℝ) ≤ (c : ℝ) := by exact_mod_cast this
        linarith
      have := Real.logb_nonneg (b := 10) (by norm_num) h1
      linarith
    · norm_num

theorem sp_cite_mono {c1 c2 : Int} (h : c1 ≤ c2) :
    SearchPaper.citationComponent (some c1) ≤ SearchPaper.citationComponent (some c2) := by
  by_cases h1 : 0 < c1
  · have h2 : 0 < c2 := lt_of_lt_of_le h1 h
    have e1 : SearchPaper.citationComponent (some c1)
        = min 30 (Real.logb 10 ((c1 : ℝ) + 1) * 10) := by
      simp [SearchPaper.citationComponent, h1]
    have e2 : SearchPaper.citationComponent (some c2)
        = min 30 (Real.logb 10 ((c2 : ℝ) + 1) * 10) := by
      simp [SearchPaper.citationComponent, h2]
    rw [e1, e2]
    apply min_le_min (le_refl _)
    have hc1 : (0 : ℝ) < (c1 : ℝ) + 1 := by
      have : (0 : ℝ) < (c1 : ℝ) := by exact_mod_cast h1
      linarith
    have hle : (c1 : ℝ) + 1 ≤ (c2 : ℝ) + 1 := by
      have : (c1 : ℝ) ≤ (c2 : ℝ) := by exact_mod_cast h
      linarith
    have := Real.logb_le_logb_of_le (b := 10) (by norm_num) hc1 hle
    linarith
  · have e1 : SearchPaper.citationComponent (some c1) = 0 := by
      simp [SearchPaper.citationComponent, h1]
    rw [e1]
    exact sp_cite_nonneg (some c2)

theorem sp_rec_le (cy : Int) (o : Option Int) (H : ∀ y, o = some y → y ≤ cy) :
    SearchPaper.recencyComponent cy o ≤ 10 := by
  match o with
  | none => simp [SearchPaper.recencyComponent]
  | some y =>
    have hy : y ≤ cy := H y rfl
    simp only [SearchPaper.recencyComponent]
    split_ifs with h
    · have h1 : max (10 - (cy - y) * 2) 0 ≤ (10 : ℤ) := max_le (by omega) (by omega)
      exact_mod_cast h1
    · norm_num

theorem sp_rec_nonneg (cy : Int) (o : Option Int) : 0 ≤ SearchPaper.recencyComponent cy o := by
  match o with
  | none => simp [SearchPaper.recencyComponent]
  | some y =>
    simp only [SearchPaper.recencyComponent]
    split_ifs with h
    · have h1 : (0 : ℤ) ≤ max (10 - (cy - y) * 2) 0 := le_max_right _ _
      exact_mod_cast h1
    · norm_num

theorem fd_sjr_le (o : Option ℚ) : FetchData.sjrComponent o ≤ 40 := by
  match o with
  | none => simp [FetchData.sjrComponent]
  | some s =>
    simp only [FetchData.sjrComponent]
    split_ifs with h
    · norm_num
    · exact min_le_right _ _

theorem fd_sjr_nonneg (o : Option ℚ) (H : ∀ s, o = some s → 0 ≤ s) :
    0 ≤ FetchData.sjrComponent o := by
  match o with
  | none => simp [FetchData.sjrComponent]
  | some s =>
    have hs : (0 : ℚ) ≤ s := H s rfl
    have hsr : (0 : ℝ) ≤ (s : ℝ) := by exact_mod_cast hs
    simp only [FetchData.sjrComponent]
    split_ifs with h
    · norm_num
    · exact le_min (by linarith) (by norm_num)

theorem fd_h_le (o : Option ℚ) : FetchData.hIndexComponent o ≤ 30 := by
  match o with
  | none => simp [FetchData.hIndexComponent]
  | some h =>
    simp only [FetchData.hIndexComponent]
    split_ifs with hz
    · norm_num
    · exact min_le_right _ _

theorem fd_h_nonneg (o : Option ℚ) (H : ∀ h, o = some h → 0 ≤ h) :
    0 ≤ FetchData.hIndexComponent o := by
  match o with
  | none => simp [FetchData.hIndexComponent]
  | some h =>
    have hh : (0 : ℚ) ≤ h := H h rfl
    have hhr : (0 : ℝ) ≤ (h : ℝ) := by exact_mod_cast hh
    simp only [FetchData.hIndexComponent]
    split_ifs with hz
    · norm_num
    · exact le_min (by linarith) (by norm_num)

theorem fd_quart_nonneg (o : Option String) : 0 ≤ FetchData.quartileComponent o := by
  match o with
  | none => simp [FetchData.quartileComponent]
  | some q =>
    simp only [FetchData.quartileComponent]
    split_ifs
    · norm_num
    · exact quartMap_nonneg _

theorem fd_quart_le (o : Option String) : FetchData.quartileComponent o ≤ 20 := by
  match o with
  | none => simp [FetchData.quartileComponent]
  | some q =>
    simp only [FetchData.quartileComponent]
    split_ifs
    · norm_num
    · exact quartMap_le _

theorem fd_cite_eq_sp (o : Option Int) :
    FetchData.citationComponent o = SearchPaper.citationComponent o := by
  match o with
  | none => simp [FetchData.citationComponent, SearchPaper.citationComponent]
  | some c =>
    simp only [FetchData.citationComponent, SearchPaper.citationComponent]
    by_cases hz : c = 0
    · subst hz
      norm_num
    · rw [if_neg hz]
      by_cases hp : 0 < c
      · rw [if_pos hp, if_pos hp, min_comm]
      · rw [if_neg hp, if_neg hp]

theorem fd_rec_le (cy : Int) (o : Option Int) (H : ∀ y, o = some y → y ≤ cy) :
    FetchData.recencyComponent cy o ≤ 10 := by
  match o with
  | none => simp [FetchData.recencyComponent]
  | some y =>
    have hy : y ≤ cy := H y rfl
    simp only [FetchData.recencyComponent]
    split_ifs with h1 h2
    · norm_num
    · have h3 : max (10 - (cy - y) * 2) 0 ≤ (10 : ℤ) := max_le (by omega) (by omega)
      exact_mod_cast h3
    · norm_num

theorem fd_rec_nonneg (cy : Int) (o : Option Int) : 0 ≤ FetchData.recencyComponent cy o := by
  match o with
  | none => simp [FetchData.recencyComponent]
  | some y =>
    simp only [FetchData.recencyComponent]
    split_ifs with h1 h2
    · norm_num
    · have h3 : (0 : ℤ) ≤ max (10 - (cy - y) * 2) 0 := le_max_right _ _
      exact_mod_cast h3
    · norm_num

theorem sp_score_le_140 (p : ScoreInput) (cy : Int)
    (hy : ∀ y, p.yearPublished = some y → y ≤ cy) :
    SearchPaper.calculate_quality_score p cy ≤ 140 := by
  unfold SearchPaper.calculate_quality_score
  have h1 := sp_sjr_le p.sjrScore
  have h2 := sp_h_le p.h_index
  have h3 := sp_quart_le p.quartile
  have h4 := sp_cite_le p.citationCount
  have h5 := sp_rec_le cy p.yearPublished hy
  have h6 := oaBonus_le p.isFreelyAvailable
  have h7 := abstractBonus_le p.abstract
  calc round2 (SearchPaper.sjrComponent p.sjrScore + SearchPaper.hIndexComponent p.h_index
        + SearchPaper.quartileComponent p.quartile
        + SearchPaper.citationComponent p.citationCount
        + SearchPaper.recencyComponent cy p.yearPublished + oaBonus p.isFreelyAvailable
        + abstractBonus p.abstract)
      ≤ ((140 : ℤ) : ℝ) := round2_le_intCast (by push_cast; linarith)
    _ = 140 := by norm_num

theorem sp_score_nonneg (p : ScoreInput) (cy : Int)
    (hs : ∀ s, p.sjrScore = some s → 0 ≤ s)
    (hh : ∀ h, p.h_index = some h → 0 ≤ h) :
    0 ≤ SearchPaper.calculate_quality_score p cy := by
  unfold SearchPaper.calculate_quality_score
  have h1 := sp_sjr_nonneg p.sjrScore hs
  have h2 := sp_h_nonneg p.h_index hh
  have h3 := sp_quart_nonneg p.quartile
  have h4 := sp_cite_nonneg p.citationCount
  have h5 := sp_rec_nonneg cy p.yearPublished
  have h6 := oaBonus_nonneg p.isFreelyAvailable
  have h7 := abstractBonus_nonneg p.abstract
  calc (0 : ℝ) = ((0 : ℤ) : ℝ) := by norm_num
    _ ≤ _ := intCast_le_round2 (by push_cast; linarith)

theorem fd_score_le_140 (p : ScoreInput) (cy : Int)
    (hy : ∀ y, p.yearPublished = some y → y ≤ cy) :
    FetchData.calculate_quality_score p cy ≤ 140 := by
  unfold FetchData.calculate_quality_score
  have h1 := fd_sjr_le p.sjrScore
  have h2 := fd_h_le p.h_index
  have h3 := fd_quart_le p.quartile
  have h4 : FetchData.citationComponent p.citationCount ≤ 30 := by
    rw [fd_cite_eq_sp]
    exact sp_cite_le p.citationCount
  have h5 := fd_rec_le cy p.yearPublished hy
  have h6 := oaBonus_le p.isFreelyAvailable
  have h7 := abstractBonus_le p.abstract
  calc round2 (FetchData.sjrComponent p.sjrScore + FetchData.hIndexComponent p.h_index
        + FetchData.quartileComponent p.quartile + FetchData.citationComponent p.citationCount
        + FetchData.recencyComponent cy p.yearPublished + oaBonus p.isFreelyAvailable
        + abstractBonus p.abstract)
      ≤ ((140 : ℤ) : ℝ) := round2_le_intCast (by push_cast; linarith)
    _ = 140 := by norm_num

theorem fd_score_nonneg (p : ScoreInput) (cy : Int)
    (hs : ∀ s, p.sjrScore = some s → 0 ≤ s)
    (hh : ∀ h, p.h_index = some h → 0 ≤ h) :
    0 ≤ FetchData.calculate_quality_score p cy := by
  unfold FetchData.calculate_quality_score
  have h1 := fd_sjr_nonneg p.sjrScore hs
  have h2 := fd_h_nonneg p.h_index hh
  have h3 := fd_quart_nonneg p.quartile
  have h4 : 0 ≤ FetchData.citationComponent p.citationCount := by
    rw [fd_cite_eq_sp]
    exact sp_cite_nonneg p.citationCount
  have h5 := fd_rec_nonneg cy p.yearPublished
  have h6 := oaBonus_nonneg p.isFreelyAvailable
  have h7 := abstractBonus_nonneg p.abstract
  calc (0 : ℝ) = ((0 : ℤ) : ℝ) := by norm_num
    _ ≤ _ := intCast_le_round2 (by push_cast; linarith)

theorem sp_score_cite_mono (p : ScoreInput) (cy : Int) {c1 c2 : Int} (hc : c1 ≤ c2) :
    SearchPaper.calculate_quality_score { p with citationCount := some c1 } cy
      ≤ SearchPaper.calculate_quality_score { p with citationCount := some c2 } cy := by
  unfold SearchPaper.calculate_quality_score
  apply round2_mono
  show SearchPaper.sjrComponent p.sjrScore + SearchPaper.hIndexComponent p.h_index
      + SearchPaper.quartileComponent p.quartile + SearchPaper.citationComponent (some c1)
      + SearchPaper.recencyComponent cy p.yearPublished + oaBonus p.isFreelyAvailable
      + abstractBonus p.abstract
    ≤ SearchPaper.sjrComponent p.sjrScore + SearchPaper.hIndexComponent p.h_index
      + SearchPaper.quartileComponent p.quartile + SearchPaper.citationComponent (some c2)
      + SearchPaper.recencyComponent cy p.yearPublished + oaBonus p.isFreelyAvailable
      + abstractBonus p.abstract
  have := sp_cite_mono hc
  linarith

theorem fd_score_cite_mono (p : ScoreInput) (cy : Int) {c1 c2 : Int} (hc : c1 ≤ c2) :
    FetchData.calculate_quality_score { p with citationCount := some c1 } cy
      ≤ FetchData.calculate_quality_score { p with citationCount := some c2 } cy := by
  unfold FetchData.calculate_quality_score
  apply round2_mono
  show FetchData.sjrComponent p.sjrScore + FetchData.hIndexComponent p.h_index
      + FetchData.quartileComponent p.quartile + FetchData.citationComponent (some c1)
      + FetchData.recencyComponent cy p.yearPublished + oaBonus p.isFreelyAvailable
      + abstractBonus p.abstract
    ≤ FetchData.sjrComponent p.sjrScore + FetchData.hIndexComponent p.h_index
      + FetchData.quartileComponent p.quartile + FetchData.citationComponent (some c2)
      + FetchData.recencyComponent cy p.yearPublished + oaBonus p.isFreelyAvailable
      + abstractBonus p.abstract
  have h1 : FetchData.citationComponent (some c1) ≤ FetchData.citationComponent (some c2) := by
    rw [fd_cite_eq_sp, fd_cite_eq_sp]
    exact sp_cite_mono hc
  linarith

theorem sp_score_no_metrics (cy : Int) :
    SearchPaper.calculate_quality_score noMetricsInput cy = 0 := by
  unfold SearchPaper.calculate_quality_score
  show round2 (SearchPaper.sjrComponent none + SearchPaper.hIndexComponent none
    + SearchPaper.quartileComponent none + SearchPaper.citationComponent none
    + SearchPaper.recencyComponent cy none + oaBonus false + abstractBonus none) = 0
  simp only [SearchPaper.sjrComponent, SearchPaper.hIndexComponent,
    SearchPaper.quartileComponent, SearchPaper.citationComponent,
    SearchPaper.recencyComponent, oaBonus, abstractBonus]
  norm_num [round2_zero]

theorem fd_score_no_metrics (cy : Int) :
    FetchData.calculate_quality_score noMetricsInput cy = 0 := by
  unfold FetchData.calculate_quality_score
  show round2 (FetchData.sjrComponent none + FetchData.hIndexComponent none
    + FetchData.quartileComponent none + FetchData.citationComponent none
    + FetchData.recencyComponent cy none + oaBonus false + abstractBonus none) = 0
  simp only [FetchData.sjrComponent, FetchData.hIndexComponent,
    FetchData.quartileComponent, FetchData.citationComponent,
    FetchData.recencyComponent, oaBonus, abstractBonus]
  norm_num [round2_zero]

/-- Claim C2, amended: with non-negative SJR and h-index values and a
publication year not in the future relative to the scorer's current year,
both scorer variants stay within `[0, 150]`; a record with no metrics at all
scores exactly `0`; and the score is monotonically non-decreasing in the
citation count with all other fields held fixed (the last two parts hold
without any hypothesis). -/
theorem C2_quality_score (p : ScoreInput) (cy : Int)
    (hs : ∀ s, p.sjrScore = some s → 0 ≤ s)
    (hh : ∀ h, p.h_index = some h → 0 ≤ h)
    (hy : ∀ y, p.yearPublished = some y → y ≤ cy) :
    (0 ≤ SearchPaper.calculate_quality_score p cy
      ∧ SearchPaper.calculate_quality_score p cy ≤ 150)
    ∧ (0 ≤ FetchData.calculate_quality_score p cy
      ∧ FetchData.calculate_quality_score p cy ≤ 150)
    ∧ SearchPaper.calculate_quality_score noMetricsInput cy = 0
    ∧ FetchData.calculate_quality_score noMetricsInput cy = 0
    ∧ (∀ c1 c2 : Int, c1 ≤ c2 →
        SearchPaper.calculate_quality_score { p with citationCount := some c1 } cy
          ≤ SearchPaper.calculate_quality_score { p with citationCount := some c2 } cy
        ∧ FetchData.calculate_quality_score { p with citationCount := some c1 } cy
          ≤ FetchData.calculate_quality_score { p with citationCount := some c2 } cy) := by
  refine ⟨⟨sp_score_nonneg p cy hs hh, le_trans (sp_score_le_140 p cy hy) (by norm_num)⟩,
    ⟨fd_score_nonneg p cy hs hh, le_trans (fd_score_le_140 p cy hy) (by norm_num)⟩,
    sp_score_no_metrics cy, fd_score_no_metrics cy, ?_⟩
  intro c1 c2 hc
  exact ⟨sp_score_cite_mono p cy hc, fd_score_cite_mono p cy hc⟩

/-- Witness for C2 at the all-absent record and current year 2025. -/
theorem C2_quality_score_witness :
    (0 ≤ SearchPaper.calculate_quality_score noMetricsInput 2025
      ∧ SearchPaper.calculate_quality_score noMetricsInput 2025 ≤ 150)
    ∧ (0 ≤ FetchData.calculate_quality_score noMetricsInput 2025
      ∧ FetchData.calculate_quality_score noMetricsInput 2025 ≤ 150)
    ∧ SearchPaper.calculate_quality_score noMetricsInput 2025 = 0
    ∧ FetchData.calculate_quality_score noMetricsInput 2025 = 0
    ∧ (∀ c1 c2 : Int, c1 ≤ c2 →
        SearchPaper.calculate_quality_score { noMetricsInput with citationCount := some c1 } 2025
          ≤ SearchPaper.calculate_quality_score { noMetricsInput with citationCount := some c2 } 2025
        ∧ FetchData.calculate_quality_score { noMetricsInput with citationCount := some c1 } 2025
          ≤ FetchData.calculate_quality_score { noMetricsInput with citationCount := some c2 } 2025) :=
  C2_quality_score noMetricsInput 2025 (by simp [noMetricsInput]) (by simp [noMetricsInput])
    (by simp [noMetricsInput])

/-- Claim C2 counterexample: the scorers have no guard against a publication
year later than the current year, so the recency term
`max(10 - 2*(current_year - year), 0)` is unbounded and both scorer variants
return `210 > 150` on a record dated `2125` evaluated in `2025`; likewise a
negative SJR value drives both scores below `0` (`fetch_data`'s linear
variant to exactly `-30`, `search_paper`'s exponential variant below `-68`).
So the score is not always in `[0, 150]` as the claim states. -/
theorem C2_counterexample :
    SearchPaper.calculate_quality_score futureInputA 2025 = 210
    ∧ FetchData.calculate_quality_score futureInputA 2025 = 210
    ∧ (150 : ℝ) < 210
    ∧ FetchData.calculate_quality_score negSjrInput 2025 = -30
    ∧ SearchPaper.calculate_quality_score negSjrInput 2025 < 0 := by
  have hmax : (max (10 - ((2025 : ℤ) - 2125) * 2) 0 : ℤ) = 210 := by decide
  refine ⟨?_, ?_, by norm_num, ?_, ?_⟩
  · unfold SearchPaper.calculate_quality_score
    show round2 (SearchPaper.sjrComponent none + SearchPaper.hIndexComponent none
      + SearchPaper.quartileComponent none + SearchPaper.citationComponent none
      + SearchPaper.recencyComponent 2025 (some 2125) + oaBonus false + abstractBonus none) = 210
    simp only [SearchPaper.sjrComponent, SearchPaper.hIndexComponent,
      SearchPaper.quartileComponent, SearchPaper.citationComponent,
      SearchPaper.recencyComponent, oaBonus, abstractBonus]
    rw [if_pos (by norm_num), hmax]
    have h210 : round2 (((210 : ℤ) : ℝ)) = ((210 : ℤ) : ℝ) := round2_intCast 210
    norm_num at h210 ⊢
    exact h210
  · unfold FetchData.calculate_quality_score
    show round2 (FetchData.sjrComponent none + FetchData.hIndexComponent none
      + FetchData.quartileComponent none + FetchData.citationComponent none
      + FetchData.recencyComponent 2025 (some 2125) + oaBonus false + abstractBonus none) = 210
    simp only [FetchData.sjrComponent, FetchData.hIndexComponent,
      FetchData.quartileComponent, FetchData.citationComponent,
      FetchData.recencyComponent, oaBonus, abstractBonus]
    rw [if_neg (by norm_num), if_pos (by norm_num), hmax]
    have h210 : round2 (((210 : ℤ) : ℝ)) = ((210 : ℤ) : ℝ) := round2_intCast 210
    norm_num at h210 ⊢
    exact h210
  · unfold FetchData.calculate_quality_score
    show round2 (FetchData.sjrComponent (some (-3)) + FetchData.hIndexComponent none
      + FetchData.quartileComponent none + FetchData.citationComponent none
      + FetchData.recencyComponent 2025 none + oaBonus false + abstractBonus none) = -30
    simp only [FetchData.sjrComponent, FetchData.hIndexComponent,
      FetchData.quartileComponent, FetchData.citationComponent,
      FetchData.recencyComponent, oaBonus, abstractBonus]
    rw [if_neg (by norm_num)]
    have hmin : min (((-3 : ℚ) : ℝ) * 10) 40 = ((-30 : ℤ) : ℝ) := by
      rw [min_eq_left (by push_cast; norm_num)]
      push_cast
      norm_num
    rw [hmin]
    have h30 : round2 (((-30 : ℤ) : ℝ)) = ((-30 : ℤ) : ℝ) := round2_intCast (-30)
    norm_num at h30 ⊢
    exact h30
  · have hexp := Real.exp_one_gt_d9
    have hb : SearchPaper.calculate_quality_score negSjrInput 2025 ≤ ((-68 : ℤ) : ℝ) := by
      unfold SearchPaper.calculate_quality_score
      apply round2_le_intCast
      show SearchPaper.sjrComponent (some (-3)) + SearchPaper.hIndexComponent none
        + SearchPaper.quartileComponent none + SearchPaper.citationComponent none
        + SearchPaper.recencyComponent 2025 none + oaBonus false + abstractBonus none
        ≤ ((-68 : ℤ) : ℝ)
      have hc : SearchPaper.sjrComponent (some (-3)) ≤ 40 * (1 - Real.exp 1) := by
        simp only [SearchPaper.sjrComponent]
        have harg : -(((-3 : ℚ) : ℝ)) / 3 = 1 := by push_cast; norm_num
        rw [harg]
        exact min_le_right _ _
      simp only [SearchPaper.hIndexComponent, SearchPaper.quartileComponent,
        SearchPaper.citationComponent, SearchPaper.recencyComponent, oaBonus, abstractBonus]
      push_cast
      nlinarith
    have : ((-68 : ℤ) : ℝ) < 0 := by norm_num
    linarith

/-- Claim C9, amended: provided the publication year does not exceed the
scorer's current year, both scorer variants are bounded by `140` — the sum
of the individual component caps `40 + 30 + 20 + 30 + 10 + 5 + 5` — strictly
below the documented ceiling of `150`. -/
theorem C9_implicit_cap_140 (p : ScoreInput) (cy : Int)
    (hy : ∀ y, p.yearPublished = some y → y ≤ cy) :
    SearchPaper.calculate_quality_score p cy ≤ 140
    ∧ FetchData.calculate_quality_score p cy ≤ 140 :=
  ⟨sp_score_le_140 p cy hy, fd_score_le_140 p cy hy⟩

/-- Witness for C9 at a record dated 2020, evaluated in 2025. -/
theorem C9_implicit_cap_140_witness :
    SearchPaper.calculate_quality_score { noMetricsInput with yearPublished := some 2020 } 2025
      ≤ 140
    ∧ FetchData.calculate_quality_score { noMetricsInput with yearPublished := some 2020 } 2025
      ≤ 140 :=
  C9_implicit_cap_140 { noMetricsInput with yearPublished := some 2020 } 2025
    (by intro y h; simp [noMetricsInput] at h; omega)

/-- Claim C9 counterexample: on a record dated `2091` evaluated in `2025`
both scorer variants return `142 > 140`, so the implicit `140` cap fails
without a bound on the publication year. -/
theorem C9_counterexample :
    SearchPaper.calculate_quality_score futureInputB 2025 = 142
    ∧ FetchData.calculate_quality_score futureInputB 2025 = 142
    ∧ (140 : ℝ) < 142 := by
  have hmax : (max (10 - ((2025 : ℤ) - 2091) * 2) 0 : ℤ) = 142 := by decide
  refine ⟨?_, ?_, by norm_num⟩
  · unfold SearchPaper.calculate_quality_score
    show round2 (SearchPaper.sjrComponent none + SearchPaper.hIndexComponent none
      + SearchPaper.quartileComponent none + SearchPaper.citationComponent none
      + SearchPaper.recencyComponent 2025 (some 2091) + oaBonus false + abstractBonus none) = 142
    simp only [SearchPaper.sjrComponent, SearchPaper.hIndexComponent,
      SearchPaper.quartileComponent, SearchPaper.citationComponent,
      SearchPaper.recencyComponent, oaBonus, abstractBonus]
    rw [if_pos (by norm_num), hmax]
    have h142 : round2 (((142 : ℤ) : ℝ)) = ((142 : ℤ) : ℝ) := round2_intCast 142
    norm_num at h142 ⊢
    exact h142
  · unfold FetchData.calculate_quality_score
    show round2 (FetchData.sjrComponent none + FetchData.hIndexComponent none
      + FetchData.quartileComponent none + FetchData.citationComponent none
      + FetchData.recencyComponent 2025 (some 2091) + oaBonus false + abstractBonus none) = 142
    simp only [FetchData.sjrComponent, FetchData.hIndexComponent,
      FetchData.quartileComponent, FetchData.citationComponent,
      FetchData.recencyComponent, oaBonus, abstractBonus]
    rw [if_neg (by norm_num), if_pos (by norm_num), hmax]
    have h142 : round2 (((142 : ℤ) : ℝ)) = ((142 : ℤ) : ℝ) := round2_intCast 142
    norm_num at h142 ⊢
    exact h142

theorem sp_loop_ok (resp : Nat → Resp) :
    ∀ fuel i, (∃ v, (SearchPaper.crossrefLoop resp fuel i).1 = Except.ok v)
      ∧ ((∀ j v, resp j ≠ Resp.success v) →
          (SearchPaper.crossrefLoop resp fuel i).1 = Except.ok none) := by
  intro fuel
  induction fuel with
  | zero => exact fun i => ⟨⟨none, rfl⟩, fun _ => rfl⟩
  | succ f ih =>
    intro i
    rcases h : resp i with v | e
    · refine ⟨⟨v, by simp [SearchPaper.crossrefLoop, h]⟩, fun hfail => ?_⟩
      exact absurd h (hfail i v)
    · match e with
      | PyExn.httpStatusError code =>
        by_cases hc : code = 429
        · subst hc
          refine ⟨?_, fun hfail => ?_⟩
          · rcases (ih (i + 1)).1 with ⟨v, hv⟩
            exact ⟨v, by simp [SearchPaper.crossrefLoop, h, hv]⟩
          · have := (ih (i + 1)).2 hfail
            simp [SearchPaper.crossrefLoop, h, this]
        · exact ⟨⟨none, by simp [SearchPaper.crossrefLoop, h, hc]⟩,
            fun _ => by simp [SearchPaper.crossrefLoop, h, hc]⟩
      | PyExn.requestError =>
        by_cases hf : 0 < f
        · refine ⟨?_, fun hfail => ?_⟩
          · rcases (ih (i + 1)).1 with ⟨v, hv⟩
            exact ⟨v, by simp [SearchPaper.crossrefLoop, h, hf, hv]⟩
          · have := (ih (i + 1)).2 hfail
            simp [SearchPaper.crossrefLoop, h, hf, this]
        · exact ⟨⟨none, by simp [SearchPaper.crossrefLoop, h, hf]⟩,
            fun _ => by simp [SearchPaper.crossrefLoop, h, hf]⟩
      | PyExn.valueError =>
        by_cases hf : 0 < f
        · refine ⟨?_, fun hfail => ?_⟩
          · rcases (ih (i + 1)).1 with ⟨v, hv⟩
            exact ⟨v, by simp [SearchPaper.crossrefLoop, h, hf, hv]⟩
          · have := (ih (i + 1)).2 hfail
            simp [SearchPaper.crossrefLoop, h, hf, this]
        · exact ⟨⟨none, by simp [SearchPaper.crossrefLoop, h, hf]⟩,
            fun _ => by simp [SearchPaper.crossrefLoop, h, hf]⟩
      | PyExn.otherError =>
        exact ⟨⟨none, by simp [SearchPaper.crossrefLoop, h]⟩,
          fun _ => by simp [SearchPaper.crossrefLoop, h]⟩

theorem fd_loop_ok (resp : Nat → Resp) :
    ∀ fuel i, (∃ v, (FetchData.crossrefLoop resp fuel i).1 = Except.ok v)
      ∧ ((∀ j v, resp j ≠ Resp.success v) →
          (FetchData.crossrefLoop resp fuel i).1 = Except.ok none) := by
  intro fuel
  induction fuel with
  | zero => exact fun i => ⟨⟨none, rfl⟩, fun _ => rfl⟩
  | succ f ih =>
    intro i
    rcases h : resp i with v | e
    · refine ⟨⟨v, by simp [FetchData.crossrefLoop, h]⟩, fun hfail => ?_⟩
      exact absurd h (hfail i v)
    · match e with
      | PyExn.httpStatusError code =>
        by_cases hc : code = 429
        · subst hc
          refine ⟨?_, fun hfail => ?_⟩
          · rcases (ih (i + 1)).1 with ⟨v, hv⟩
            exact ⟨v, by simp [FetchData.crossrefLoop, h, hv]⟩
          · have := (ih (i + 1)).2 hfail
            simp [FetchData.crossrefLoop, h, this]
        · by_cases hc4 : code = 404
          · exact ⟨⟨none, by simp [FetchData.crossrefLoop, h, hc, hc4]⟩,
              fun _ => by simp [FetchData.crossrefLoop, h, hc, hc4]⟩
          · refine ⟨?_, fun hfail => ?_⟩
            · rcases (ih (i + 1)).1 with ⟨v, hv⟩
              exact ⟨v, by simp [FetchData.crossrefLoop, h, hc, hc4, hv]⟩
            · have := (ih (i + 1)).2 hfail
              simp [FetchData.crossrefLoop, h, hc, hc4, this]
      | PyExn.requestError =>
        refine ⟨?_, fun hfail => ?_⟩
        · rcases (ih (i + 1)).1 with ⟨v, hv⟩
          exact ⟨v, by simp [FetchData.crossrefLoop, h, hv]⟩
        · have := (ih (i + 1)).2 hfail
          simp [FetchData.crossrefLoop, h, this]
      | PyExn.valueError =>
        refine ⟨?_, fun hfail => ?_⟩
        · rcases (ih (i + 1)).1 with ⟨v, hv⟩
          exact ⟨v, by simp [FetchData.crossrefLoop, h, hv]⟩
        · have := (ih (i + 1)).2 hfail
          simp [FetchData.crossrefLoop, h, this]
      | PyExn.otherError =>
        refine ⟨?_, fun hfail => ?_⟩
        · rcases (ih (i + 1)).1 with ⟨v, hv⟩
          exact ⟨v, by simp [FetchData.crossrefLoop, h, hv]⟩
        · have := (ih (i + 1)).2 hfail
          simp [FetchData.crossrefLoop, h, this]

theorem rs_loop_ok (resp : Nat → Resp) :
    ∀ fuel i, (∃ v, (ResearchService.crossrefLoop resp fuel i).1 = Except.ok v)
      ∧ ((∀ j v, resp j ≠ Resp.success v) →
          (ResearchService.crossrefLoop resp fuel i).1 = Except.ok none) := by
  intro fuel
  induction fuel with
  | zero => exact fun i => ⟨⟨none, rfl⟩, fun _ => rfl⟩
  | succ f ih =>
    intro i
    rcases h : resp i with v | e
    · refine ⟨⟨v, by simp [ResearchService.crossrefLoop, h]⟩, fun hfail => ?_⟩
      exact absurd h (hfail i v)
    · match e with
      | PyExn.httpStatusError code =>
        by_cases hc : code = 429
        · subst hc
          refine ⟨?_, fun hfail => ?_⟩
          · rcases (ih (i + 1)).1 with ⟨v, hv⟩
            exact ⟨v, by simp [ResearchService.crossrefLoop, h, hv]⟩
          · have := (ih (i + 1)).2 hfail
            simp [ResearchService.crossrefLoop, h, this]
        · exact ⟨⟨none, by simp [ResearchService.crossrefLoop, h, hc]⟩,
            fun _ => by simp [ResearchService.crossrefLoop, h, hc]⟩
      | PyExn.requestError =>
        by_cases hf : 0 < f
        · refine ⟨?_, fun hfail => ?_⟩
          · rcases (ih (i + 1)).1 with ⟨v, hv⟩
            exact ⟨v, by simp [ResearchService.crossrefLoop, h, hf, hv]⟩
          · have := (ih (i + 1)).2 hfail
            simp [ResearchService.crossrefLoop, h, hf, this]
        · exact ⟨⟨none, by simp [ResearchService.crossrefLoop, h, hf]⟩,
            fun _ => by simp [ResearchService.crossrefLoop, h, hf]⟩
      | PyExn.valueError =>
        exact ⟨⟨none, by simp [ResearchService.crossrefLoop, h]⟩,
          fun _ => by simp [ResearchService.crossrefLoop, h]⟩
      | PyExn.otherError =>
        exact ⟨⟨none, by simp [ResearchService.crossrefLoop, h]⟩,
          fun _ => by simp [ResearchService.crossrefLoop, h]⟩

/-- Claim C6: none of the three fetcher variants lets an exception escape —
for every DOI and every sequence of attempt outcomes the result is
`Except.ok`, and when no attempt ever succeeds the result is exactly the
empty value `Except.ok none`. -/
theorem C6_fetcher_never_raises (doi : Option String) (resp : Nat → Resp) (retries : Nat) :
    ((∃ v, (SearchPaper.enrich_paper_with_crossref doi resp retries).1 = Except.ok v)
      ∧ (∃ v, (FetchData.enrich_paper_with_crossref doi resp).1 = Except.ok v)
      ∧ (∃ v, (ResearchService.crossref_get doi resp).1 = Except.ok v))
    ∧ ((∀ j v, resp j ≠ Resp.success v) →
        (SearchPaper.enrich_paper_with_crossref doi resp retries).1 = Except.ok none
        ∧ (FetchData.enrich_paper_with_crossref doi resp).1 = Except.ok none
        ∧ (ResearchService.crossref_get doi resp).1 = Except.ok none) := by
  constructor
  · refine ⟨?_, ?_, ?_⟩
    · unfold SearchPaper.enrich_paper_with_crossref
      split_ifs
      · exact (sp_loop_ok resp retries 0).1
      · exact ⟨none, rfl⟩
    · unfold FetchData.enrich_paper_with_crossref
      split_ifs
      · exact (fd_loop_ok resp 5 0).1
      · exact ⟨none, rfl⟩
    · unfold ResearchService.crossref_get
      split_ifs
      · exact (rs_loop_ok resp 5 0).1
      · exact ⟨none, rfl⟩
  · intro hfail
    refine ⟨?_, ?_, ?_⟩
    · unfold SearchPaper.enrich_paper_with_crossref
      split_ifs
      · exact (sp_loop_ok resp retries 0).2 hfail
      · rfl
    · unfold FetchData.enrich_paper_with_crossref
      split_ifs
      · exact (fd_loop_ok resp 5 0).2 hfail
      · rfl
    · unfold ResearchService.crossref_get
      split_ifs
      · exact (rs_loop_ok resp 5 0).2 hfail
      · rfl

/-- Witness for C6: five straight transport errors on a real DOI produce an
empty result (and no escaped exception) in all three variants. -/
theorem C6_fetcher_never_raises_witness :
    ((∃ v, (SearchPaper.enrich_paper_with_crossref (some "10.1/x")
        (fun _ => Resp.raise PyExn.requestError) 5).1 = Except.ok v)
      ∧ (∃ v, (FetchData.enrich_paper_with_crossref (some "10.1/x")
          (fun _ => Resp.raise PyExn.requestError)).1 = Except.ok v)
      ∧ (∃ v, (ResearchService.crossref_get (some "10.1/x")
          (fun _ => Resp.raise PyExn.requestError)).1 = Except.ok v))
    ∧ ((∀ j v, (fun _ => Resp.raise PyExn.requestError : Nat → Resp) j ≠ Resp.success v) →
        (SearchPaper.enrich_paper_with_crossref (some "10.1/x")
          (fun _ => Resp.raise PyExn.requestError) 5).1 = Except.ok none
        ∧ (FetchData.enrich_paper_with_crossref (some "10.1/x")
            (fun _ => Resp.raise PyExn.requestError)).1 = Except.ok none
        ∧ (ResearchService.crossref_get (some "10.1/x")
            (fun _ => Resp.raise PyExn.requestError)).1 = Except.ok none) :=
  C6_fetcher_never_raises (some "10.1/x") (fun _ => Resp.raise PyExn.requestError) 5

/-- In `search_paper.py`'s fetcher, after any run of 429 responses, an HTTP
status error with any code other than 429 (404 included) ends the loop at
that attempt with an empty result. -/
theorem sp_loop_http_stops (resp : Nat → Resp) (code : Nat) (hc : code ≠ 429) :
    ∀ (k i fuel : Nat),
      (∀ j, j < k → resp (i + j) = Resp.raise (PyExn.httpStatusError 429)) →
      k < fuel → resp (i + k) = Resp.raise (PyExn.httpStatusError code) →
      SearchPaper.crossrefLoop resp fuel i = (Except.ok none, i + k + 1) := by
  intro k
  induction k with
  | zero =>
    intro i fuel h429 hk hresp
    match fuel, hk with
    | f + 1, _ =>
      have h0 : resp i = Resp.raise (PyExn.httpStatusError code) := by simpa using hresp
      simp [SearchPaper.crossrefLoop, h0, hc]
  | succ n ih =>
    intro i fuel h429 hk hresp
    match fuel, hk with
    | f + 1, hk =>
      have h0 : resp i = Resp.raise (PyExn.httpStatusError 429) := by
        have := h429 0 (Nat.succ_pos n)
        simpa using this
      have hstep : SearchPaper.crossrefLoop resp (f + 1) i
          = SearchPaper.crossrefLoop resp f (i + 1) := by
        simp [SearchPaper.crossrefLoop, h0]
      rw [hstep]
      have h429s : ∀ j, j < n → resp (i + 1 + j) = Resp.raise (PyExn.httpStatusError 429) := by
        intro j hj
        have harith : i + 1 + j = i + (j + 1) := by omega
        rw [harith]
        exact h429 (j + 1) (by omega)
      have hresp2 : resp (i + 1 + n) = Resp.raise (PyExn.httpStatusError code) := by
        have harith : i + 1 + n = i + (n + 1) := by omega
        rw [harith]
        exact hresp
      have := ih (i + 1) f h429s (by omega) hresp2
      rw [this]
      have harith : i + 1 + n + 1 = i + (n + 1) + 1 := by omega
      rw [harith]

/-- Claim C4 counterexample: `fetch_data.py`'s `enrich_paper_with_crossref`
swallows an HTTP 500 without returning, performs a SECOND attempt, and
succeeds — so in that variant a status error other than 429/404 is not a
terminal failure after exactly one attempt as the claim states. -/
theorem C4_counterexample :
    FetchData.enrich_paper_with_crossref (some "10.1/x") resp500
      = (Except.ok (some demoMeta), 2) := by
  rfl

/-- Claim C4, amended: in `search_paper.py`'s fetcher an HTTP status error
other than 429 — 404 included — terminates the fetch at that attempt with an
empty result and no further retry (only 429 and transport errors are
retried); in `fetch_data.py`'s variant, however, a status error other than
429/404 is retried like a transport error: a 500 followed by a success
yields the success on the second attempt. -/
theorem C4_terminal_http (resp : Nat → Resp) (code k retries : Nat) (doi : String)
    (hdoi : doi ≠ "") (hc : code ≠ 429) (hc4 : code ≠ 404)
    (h429 : ∀ j, j < k → resp j = Resp.raise (PyExn.httpStatusError 429))
    (hk : k < retries) (hcode : resp k = Resp.raise (PyExn.httpStatusError code)) :
    SearchPaper.enrich_paper_with_crossref (some doi) resp retries = (Except.ok none, k + 1)
    ∧ (∀ resp2 : Nat → Resp, resp2 0 = Resp.raise (PyExn.httpStatusError 404) →
        SearchPaper.enrich_paper_with_crossref (some doi) resp2 retries = (Except.ok none, 1))
    ∧ (∀ (resp3 : Nat → Resp) (v : Option Meta),
        resp3 0 = Resp.raise (PyExn.httpStatusError code) → resp3 1 = Resp.success v →
        FetchData.enrich_paper_with_crossref (some doi) resp3 = (Except.ok v, 2)) := by
  have htruthy : optStrTruthy (some doi) = true := by
    simp [optStrTruthy]
    exact hdoi
  refine ⟨?_, ?_, ?_⟩
  · unfold SearchPaper.enrich_paper_with_crossref
    rw [if_pos htruthy]
    have := sp_loop_http_stops resp code hc k 0 retries (by simpa using h429) hk
      (by simpa using hcode)
    simpa using this
  · intro resp2 h404
    unfold SearchPaper.enrich_paper_with_crossref
    rw [if_pos htruthy]
    have := sp_loop_http_stops resp2 404 (by norm_num) 0 0 retries (by omega) (by omega)
      (by simpa using h404)
    simpa using this
  · intro resp3 v h500 hok
    unfold FetchData.enrich_paper_with_crossref
    rw [if_pos htruthy]
    show FetchData.crossrefLoop resp3 5 0 = (Except.ok v, 2)
    have hstep : FetchData.crossrefLoop resp3 5 0 = FetchData.crossrefLoop resp3 4 1 := by
      simp [FetchData.crossrefLoop, h500, hc, hc4]
    rw [hstep]
    simp [FetchData.crossrefLoop, hok]

/-- Witness for C4's amended theorem: two 429s then a 500 on a real DOI with
the default five retries. -/
theorem C4_terminal_http_witness :
    SearchPaper.enrich_paper_with_crossref (some "10.1/x")
      (fun j => if j < 2 then Resp.raise (PyExn.httpStatusError 429)
        else Resp.raise (PyExn.httpStatusError 500)) 5 = (Except.ok none, 3) :=
  (C4_terminal_http
    (fun j => if j < 2 then Resp.raise (PyExn.httpStatusError 429)
      else Resp.raise (PyExn.httpStatusError 500)) 500 2 5 "10.1/x"
    (by decide) (by decide) (by decide) (by decide) (by decide) (by decide)).1

theorem resolveISSN_eq_find (l : List String) :
    SearchPaper.resolveISSN l = (l.map clean_issn).find? (fun c => c != "") := by
  induction l with
  | nil => rfl
  | cons c rest ih =>
    by_cases hc : c = ""
    · subst hc
      have hclean : clean_issn "" = "" := rfl
      simp [SearchPaper.resolveISSN, List.find?_cons, hclean, ih]
    · by_cases hcc : clean_issn c = ""
      · simp [SearchPaper.resolveISSN, hc, hcc, List.find?_cons, ih]
      · simp [SearchPaper.resolveISSN, hc, hcc, List.find?_cons]

theorem resolveISSN_append_empty (l1 l2 : List String) :
    SearchPaper.resolveISSN (l1 ++ "" :: l2) = SearchPaper.resolveISSN (l1 ++ l2) := by
  induction l1 with
  | nil => simp [SearchPaper.resolveISSN]
  | cons a t ih => simp only [List.cons_append, SearchPaper.resolveISSN, List.append_eq, ih]

theorem resolve_eq_claim (metaRes : GatherRes) (w : Work) :
    SearchPaper.resolveISSN (SearchPaper.issnCandidates (SearchPaper.metaUseOf metaRes)
        w.host_venue)
      = claimResolveISSN (spSecondary metaRes) (spLinking w) (spVenueIssns w) := by
  unfold claimResolveISSN
  rw [← resolveISSN_eq_find]
  unfold SearchPaper.issnCandidates spSecondary spLinking spVenueIssns
  rcases hv : w.host_venue with _ | v
  · simp
  · rcases hl : v.issn_l with _ | s
    · simp only [hl, Option.toList_none, List.nil_append]
      simp [List.append_assoc]
    · by_cases hs : s = ""
      · subst hs
        simp only [hl, Option.toList_some]
        have h1 : (if ("" : String) ≠ "" then [("" : String)] else []) = ([] : List String) := by
          simp
        rw [h1]
        simp only [List.nil_append, List.append_assoc, List.singleton_append]
        exact (resolveISSN_append_empty _ v.issn).symm
      · simp only [hl, Option.toList_some]
        rw [if_pos hs]
        simp [List.append_assoc]

/-- Claim C5 counterexample: `research_service.py`'s pipeline DROPS a work —
title present — whenever its Crossref slot is `None` (no DOI / not-found /
exhausted retries) or an exception, instead of emitting it with
primary-source fields only. -/
theorem C5_counterexample :
    demoWork.title = some "Graphene batteries"
    ∧ ResearchService.processWork (some demoWork) (GatherRes.val none) [] 2025 = none
    ∧ ResearchService.processWork (some demoWork) GatherRes.exn [] 2025 = none :=
  ⟨rfl, rfl, rfl⟩

/-- Claim C5, amended: in `search_paper.py`'s pipeline a (truthy) work is
always emitted whatever the Crossref slot holds — a failed/absent lookup
only leaves the publisher enrichment empty — and no title is required; in
`research_service.py`'s pipeline a work whose Crossref slot is an exception
or `None` is dropped, and only works with a Crossref dict are emitted. -/
theorem C5_failed_lookup_emission (w : Work) (metaRes : GatherRes) (table : SjrTable)
    (kw : String) (cy : Int) :
    (SearchPaper.processWorkOpt (some w) metaRes table kw cy).isSome
    ∧ (SearchPaper.processWork w GatherRes.exn table kw cy).publisher = none
    ∧ (SearchPaper.processWork w (GatherRes.val none) table kw cy).publisher = none
    ∧ ResearchService.processWork (some w) GatherRes.exn table cy = none
    ∧ ResearchService.processWork (some w) (GatherRes.val none) table cy = none
    ∧ (∀ m : Meta,
        (ResearchService.processWork (some w) (GatherRes.val (some m)) table cy).isSome) :=
  ⟨rfl, rfl, rfl, rfl, rfl, fun _ => rfl⟩

/-- Witness for C5 at the concrete work `demoWork` with an exception in
the Crossref slot. -/
theorem C5_failed_lookup_emission_witness :
    (SearchPaper.processWorkOpt (some demoWork) GatherRes.exn [] "kw" 2025).isSome
    ∧ (SearchPaper.processWork demoWork GatherRes.exn [] "kw" 2025).publisher = none
    ∧ (SearchPaper.processWork demoWork (GatherRes.val none) [] "kw" 2025).publisher = none
    ∧ ResearchService.processWork (some demoWork) GatherRes.exn [] 2025 = none
    ∧ ResearchService.processWork (some demoWork) (GatherRes.val none) [] 2025 = none
    ∧ (∀ m : Meta,
        (ResearchService.processWork (some demoWork) (GatherRes.val (some m)) [] 2025).isSome) :=
  C5_failed_lookup_emission demoWork GatherRes.exn [] "kw" 2025

/-- Claim C7, amended: in `search_paper.py`'s pipeline the resolved ISSN of
every emitted paper follows exactly the claimed rule — candidates from the
secondary ISSN list first, then the venue-level fallback fields with the
linking slot, each stripped to digits, first non-empty wins — and when no
candidate resolves the ranking fields stay absent; in
`research_service.py`, however, only the FIRST element of the secondary
ISSN list is ever considered (no venue fallback, no skipping to a later
candidate). -/
theorem C7_issn_resolution (w : Work) (metaRes : GatherRes) (table : SjrTable)
    (kw : String) (cy : Int) :
    (SearchPaper.processWork w metaRes table kw cy).issn
      = claimResolveISSN (spSecondary metaRes) (spLinking w) (spVenueIssns w)
    ∧ ((SearchPaper.processWork w metaRes table kw cy).issn = none →
        (SearchPaper.processWork w metaRes table kw cy).quartile = none
        ∧ (SearchPaper.processWork w metaRes table kw cy).h_index = none
        ∧ (SearchPaper.processWork w metaRes table kw cy).sjrScore = none)
    ∧ (∀ (issnList : List String) (table2 : SjrTable),
        (ResearchService.enrich_with_sjr issnList table2).1
          = issnList.head?.map (fun s => clean_issn s)) := by
  refine ⟨?_, ?_, ?_⟩
  · show SearchPaper.resolveISSN (SearchPaper.issnCandidates (SearchPaper.metaUseOf metaRes)
        w.host_venue)
      = claimResolveISSN (spSecondary metaRes) (spLinking w) (spVenueIssns w)
    exact resolve_eq_claim metaRes w
  · intro h
    have hc : SearchPaper.resolveISSN (SearchPaper.issnCandidates (SearchPaper.metaUseOf metaRes)
        w.host_venue) = none := h
    refine ⟨?_, ?_, ?_⟩
    · show (match SearchPaper.rankOf (SearchPaper.resolveISSN
          (SearchPaper.issnCandidates (SearchPaper.metaUseOf metaRes) w.host_venue)) table with
        | some r => r.quartile
        | none => none) = none
      rw [hc]
      rfl
    · show (match SearchPaper.rankOf (SearchPaper.resolveISSN
          (SearchPaper.issnCandidates (SearchPaper.metaUseOf metaRes) w.host_venue)) table with
        | some r => r.h_index
        | none => none) = none
      rw [hc]
      rfl
    · show (match SearchPaper.rankOf (SearchPaper.resolveISSN
          (SearchPaper.issnCandidates (SearchPaper.metaUseOf metaRes) w.host_venue)) table with
        | some r => r.sjr
        | none => none) = none
      rw [hc]
      rfl
  · intro issnList table2
    match issnList with
    | [] => rfl
    | c :: t =>
      by_cases hcc : clean_issn c = ""
      · simp [ResearchService.enrich_with_sjr, hcc]
      · rcases hf : table2.find? (fun e => e.1 = clean_issn c) with _ | e
        · simp [ResearchService.enrich_with_sjr, hcc, hf]
        · simp [ResearchService.enrich_with_sjr, hcc, hf]

/-- Witness for C7 at a concrete work whose venue carries ISSN
candidates. -/
theorem C7_issn_resolution_witness :
    (SearchPaper.processWork demoWorkVenue (GatherRes.val (some demoMeta)) [] "kw" 2025).issn
      = claimResolveISSN (spSecondary (GatherRes.val (some demoMeta)))
          (spLinking demoWorkVenue) (spVenueIssns demoWorkVenue) :=
  (C7_issn_resolution demoWorkVenue (GatherRes.val (some demoMeta)) [] "kw" 2025).1

/-- Claim C7 counterexample: with the Crossref ISSN list
`["ab-cd", "1234-5678"]` the claimed rule resolves `"12345678"` (the first
candidate that is non-empty after stripping), but
`research_service.py`'s `_enrich_with_sjr` only cleans the FIRST element,
stores the empty string as the ISSN, and leaves the ranking fields absent
even though the table contains `"12345678"`. -/
theorem C7_counterexample :
    ResearchService.enrich_with_sjr ["ab-cd", "1234-5678"] demoTable
      = (some "", none, none, none)
    ∧ claimResolveISSN ["ab-cd", "1234-5678"] none [] = some "12345678" := by
  constructor
  · rfl
  · rfl

/-- Claim C1 counterexample: in `research_service.py`'s deduplicator the
abstract tie-break is NOT restricted to equal scores — an incoming record
with score 80 and an abstract replaces the stored score-95 record sharing
its DOI, so the score-95 record does not survive and the stored record is
replaced although the incoming one has neither a strictly higher score nor
an equal-score abstract advantage. -/
theorem C1_counterexample :
    ResearchService.dedup [dpStored95, dpIncoming80] = [("10.1/x", dpIncoming80)]
    ∧ dpStored95.qualityScore = 95 ∧ dpIncoming80.qualityScore = 80 := by
  refine ⟨by decide, rfl, rfl⟩

/-- Claim C1, amended: on a collision of two records, `search_paper.py`'s
deduplicator replaces a DOI-keyed stored record iff the incoming one has a
strictly higher quality score (there is no abstract tie-break), and — due
to the tuple-vs-`str(key)` membership test — always replaces a stored
no-DOI record with the latest arrival sharing its title and year;
`research_service.py`'s deduplicator replaces the stored record iff the
incoming one has a strictly higher score or has a non-empty abstract while
the stored one does not, even when the incoming score is lower; of two
records sharing a DOI with scores 80 and 95, `search_paper`'s deduplicator
retains the score-95 record in either arrival order. -/
theorem C1_dedup_keep_best (e p : DPaper) :
    (∀ d : String, d ≠ "" → e.doi = some d → p.doi = some d →
      SearchPaper.dedup [e, p]
        = [(SearchPaper.PyKey.pstr d, if p.qualityScore > e.qualityScore then p else e)])
    ∧ (¬ optStrTruthy e.doi = true → ¬ optStrTruthy p.doi = true →
        p.title = e.title → p.yearPublished = e.yearPublished →
        SearchPaper.dedup [e, p]
          = [(SearchPaper.PyKey.pstr (SearchPaper.tupleKeyStr e.title e.yearPublished), p)])
    ∧ (ResearchService.dedupKey e = ResearchService.dedupKey p →
        ResearchService.dedupKey p ≠ "" →
        ResearchService.dedup [e, p]
          = [(ResearchService.dedupKey p,
              if p.qualityScore > e.qualityScore
                  ∨ (optStrTruthy p.abstract ∧ ¬ optStrTruthy e.abstract) then p else e)])
    ∧ SearchPaper.dedup [dpX80, dpX95] = [(SearchPaper.PyKey.pstr "10.2/Y", dpX95)]
    ∧ SearchPaper.dedup [dpX95, dpX80] = [(SearchPaper.PyKey.pstr "10.2/Y", dpX95)] := by
  refine ⟨?_, ?_, ?_, by decide, by decide⟩
  · intro d hd he hp
    have hdb : (d != "") = true := by simp [hd]
    by_cases hq : p.qualityScore > e.qualityScore
    · simp [SearchPaper.dedup, SearchPaper.dedupStep, SearchPaper.dictSet,
        SearchPaper.dictGet?, optStrTruthy, he, hp, hdb, hq, List.find?_cons]
    · simp [SearchPaper.dedup, SearchPaper.dedupStep, SearchPaper.dictSet,
        SearchPaper.dictGet?, optStrTruthy, he, hp, hdb, hq, List.find?_cons]
  · intro hte htp htitle hyear
    simp [SearchPaper.dedup, SearchPaper.dedupStep, SearchPaper.dictSet,
      SearchPaper.dictGet?, hte, htp, htitle, hyear, List.find?_cons]
  · intro hkey hne
    simp [ResearchService.dedup, ResearchService.dedupStep, hkey, hne, List.find?_cons]
    split <;> rfl

/-- Witness for C1's amended theorem: the DOI branch at the concrete
score-95/score-80 pair, the 95 record arriving first. -/
theorem C1_dedup_keep_best_witness :
    SearchPaper.dedup [dpX95, dpX80]
      = [(SearchPaper.PyKey.pstr "10.2/Y",
          if dpX80.qualityScore > dpX95.qualityScore then dpX80 else dpX95)] :=
  (C1_dedup_keep_best dpX95 dpX80).1 "10.2/Y" (by decide) rfl rfl
